import Mathlib

/-!
Uganda Location Selector: shallow embedding and verified properties.

Embedding of `src/uganda-location-selector.js` (class `UgandaLocationSelector`).

* The dataset (`uganda_electoral_data.json`) is a four-level tree
  `districts → constituencies → subcounties → electoral_areas`; every node has
  a `name` and a `code`, both strings.
* A method that `throw`s is modelled by `Except.error`; a method that returns
  `null` returns `none`.
* Arguments are JavaScript values: the documented type is `string`, and a caller
  may also pass `null` or leave the argument out (`undefined`).
* `Array.prototype.forEach` with `results.push(..)` / `total += ..` is modelled
  by `List.foldl` threading the mutated variables as an accumulator.
* `String.prototype.toLowerCase` is a parameter of the search functions, so
  every statement about searching holds for whatever case mapping the
  JavaScript engine implements.
* The counters of `getStatistics` are natural numbers (the JavaScript numbers
  involved are small non-negative integers, far below `2^53`).
* The two asynchronous methods are functions of their environment:
  `getCoordinates` takes `encodeURIComponent`, `parseFloat` and the outcome of
  the request as parameters and also returns the list of URLs it requested;
  `init` takes the outcome of loading the data file, a JSON value of any shape,
  and returns the two fields after the call together with the settled value.
-/

namespace UgandaLocation

/-! ## JavaScript values and strings -/

/-- A value passed as an argument to a method: `undefined` (argument omitted),
`null`, or a string. -/
inductive JSVal where
  | undefined : JSVal
  | null : JSVal
  | str (s : String) : JSVal
  deriving DecidableEq

/-- JavaScript truthiness, as tested by `!x`: `undefined`, `null` and the empty
string are falsy, every other string is truthy. -/
def JSVal.truthy : JSVal → Bool
  | .undefined => false
  | .null => false
  | .str s => s != ""

/-- Strict equality `code === v` of a string `code` of the dataset with an
argument value `v`: true only for a string with the same characters. -/
def JSVal.strictEq (code : String) : JSVal → Bool
  | .str s => code == s
  | _ => false

/-- The method `String.prototype.includes(searchString)`: `searchString` occurs
as a contiguous substring of `s` (the empty string occurs in every string). -/
def includes (s searchString : String) : Bool :=
  s.data.tails.any fun suffix => searchString.data.isPrefixOf suffix

/-! ## Data model (shape of `uganda_electoral_data.json`) -/

/-- An electoral area, leaf of the tree. -/
structure ElectoralArea where
  name : String
  code : String
  deriving DecidableEq

/-- A sub-county with its `electoral_areas`. -/
structure SubCounty where
  name : String
  code : String
  electoral_areas : List ElectoralArea
  deriving DecidableEq

/-- A constituency with its `subcounties`. -/
structure Constituency where
  name : String
  code : String
  subcounties : List SubCounty
  deriving DecidableEq

/-- A district with its `constituencies`. -/
structure District where
  name : String
  code : String
  constituencies : List Constituency
  deriving DecidableEq

/-- The parsed document: top-level key `districts`. -/
structure Data where
  districts : List District
  deriving DecidableEq

/-- The object literal `{ name: .., code: .. }` returned by the lookups. -/
structure Entry where
  name : String
  code : String
  deriving DecidableEq

/-- The object returned by `getLocationHierarchy` when all four links match. -/
structure Hierarchy where
  district : Entry
  constituency : Entry
  subCounty : Entry
  electoralArea : Entry
  deriving DecidableEq

/-- A record pushed by `searchLocations`: `type` and `district` are always
present, a key that the object literal does not have is `none`. -/
structure SearchResult where
  type : String
  district : Entry
  constituency : Option Entry
  subCounty : Option Entry
  electoralArea : Option Entry
  deriving DecidableEq

/-- The object returned by `getStatistics`. -/
structure Statistics where
  districts : Nat
  constituencies : Nat
  subCounties : Nat
  electoralAreas : Nat
  deriving DecidableEq

/-- What a method can throw: the `Error` of `_checkInitialized`, the
`TypeError` of reading `this.data.districts` while `this.data` is `null`, the
two `Error`s created by `getCoordinates`, and an error raised by the
environment (`fetch`, `response.json`, `fs.readFileSync`, `JSON.parse`), which
`init` and `getCoordinates` log and rethrow. -/
inductive Error where
  | notInitialized : Error
  | typeError : Error
  | locationNameRequired : Error
  | noCoordinatesFound (locationName : String) : Error
  | external (message : String) : Error
  deriving DecidableEq

/-- The two fields of a `UgandaLocationSelector` instance. -/
structure UgandaLocationSelector where
  data : Option Data
  initialized : Bool
  deriving DecidableEq

namespace UgandaLocationSelector

/-- The class constructor: `this.data = null; this.initialized = false`. -/
def new : UgandaLocationSelector :=
  { data := none, initialized := false }

/-- Throws unless `this.initialized`. -/
def _checkInitialized (self : UgandaLocationSelector) : Except Error Unit :=
  if !self.initialized then .error .notInitialized else .ok ()

/-- The expression `this.data.districts`. -/
def districts (self : UgandaLocationSelector) : Except Error (List District) :=
  match self.data with
  | none => .error .typeError
  | some data => .ok data.districts

/-- Method `getDistricts()`. -/
def getDistricts (self : UgandaLocationSelector) : Except Error (List Entry) :=
  match self._checkInitialized with
  | .error e => .error e
  | .ok _ =>
    match self.districts with
    | .error e => .error e
    | .ok districts =>
      .ok (districts.map fun district => { name := district.name, code := district.code })

/-- Method `getConstituencies(districtCode)`; the `console.warn` is not observable
in the result. -/
def getConstituencies (self : UgandaLocationSelector) (districtCode : JSVal) :
    Except Error (List Entry) :=
  match self._checkInitialized with
  | .error e => .error e
  | .ok _ =>
    if !districtCode.truthy then .ok []
    else
      match self.districts with
      | .error e => .error e
      | .ok districts =>
        match districts.find? fun d => districtCode.strictEq d.code with
        | none => .ok []
        | some district =>
          .ok (district.constituencies.map fun constituency =>
            { name := constituency.name, code := constituency.code })

/-- Method `getSubCounties(districtCode, constituencyCode)`. -/
def getSubCounties (self : UgandaLocationSelector) (districtCode constituencyCode : JSVal) :
    Except Error (List Entry) :=
  match self._checkInitialized with
  | .error e => .error e
  | .ok _ =>
    if !districtCode.truthy || !constituencyCode.truthy then .ok []
    else
      match self.districts with
      | .error e => .error e
      | .ok districts =>
        match districts.find? fun d => districtCode.strictEq d.code with
        | none => .ok []
        | some district =>
          match district.constituencies.find? fun c => constituencyCode.strictEq c.code with
          | none => .ok []
          | some constituency =>
            .ok (constituency.subcounties.map fun subcounty =>
              { name := subcounty.name, code := subcounty.code })

/-- Method `getElectoralAreas(districtCode, constituencyCode, subCountyCode)`. -/
def getElectoralAreas (self : UgandaLocationSelector)
    (districtCode constituencyCode subCountyCode : JSVal) : Except Error (List Entry) :=
  match self._checkInitialized with
  | .error e => .error e
  | .ok _ =>
    if !districtCode.truthy || !constituencyCode.truthy || !subCountyCode.truthy then .ok []
    else
      match self.districts with
      | .error e => .error e
      | .ok districts =>
        match districts.find? fun d => districtCode.strictEq d.code with
        | none => .ok []
        | some district =>
          match district.constituencies.find? fun c => constituencyCode.strictEq c.code with
          | none => .ok []
          | some constituency =>
            match constituency.subcounties.find? fun s => subCountyCode.strictEq s.code with
            | none => .ok []
            | some subcounty =>
              .ok (subcounty.electoral_areas.map fun area =>
                { name := area.name, code := area.code })

/-- Method `getLocationHierarchy(districtCode, constituencyCode, subCountyCode,
electoralAreaCode)`; `none` is the returned `null`. -/
def getLocationHierarchy (self : UgandaLocationSelector)
    (districtCode constituencyCode subCountyCode electoralAreaCode : JSVal) :
    Except Error (Option Hierarchy) :=
  match self._checkInitialized with
  | .error e => .error e
  | .ok _ =>
    match self.districts with
    | .error e => .error e
    | .ok districts =>
      match districts.find? fun d => districtCode.strictEq d.code with
      | none => .ok none
      | some district =>
        match district.constituencies.find? fun c => constituencyCode.strictEq c.code with
        | none => .ok none
        | some constituency =>
          match constituency.subcounties.find? fun s => subCountyCode.strictEq s.code with
          | none => .ok none
          | some subcounty =>
            match subcounty.electoral_areas.find? fun a => electoralAreaCode.strictEq a.code with
            | none => .ok none
            | some electoralArea =>
              .ok (some
                { district := { name := district.name, code := district.code }
                  constituency := { name := constituency.name, code := constituency.code }
                  subCounty := { name := subcounty.name, code := subcounty.code }
                  electoralArea := { name := electoralArea.name, code := electoralArea.code } })

/-- The default parameter value of `searchLocations(searchTerm, level = 'all')`:
an omitted (`undefined`) argument is replaced by `'all'`. -/
def levelOrDefault : JSVal → JSVal
  | .undefined => .str "all"
  | level => level

/-- The test `level === name || level === 'all'` guarding each push. -/
def levelSelects (level : JSVal) (name : String) : Bool :=
  level.strictEq name || level.strictEq "all"

/-- Loop `subcounty.electoral_areas.forEach(area => ..)` of `searchLocations`. -/
def searchElectoralAreas (toLowerCase : String → String) (level : JSVal) (term : String)
    (district : District) (constituency : Constituency) (subcounty : SubCounty)
    (results : List SearchResult) : List SearchResult :=
  subcounty.electoral_areas.foldl
    (fun results area =>
      if levelSelects level "electoral_area" && includes (toLowerCase area.name) term then
        results ++
          [{ type := "electoral_area"
             district := { name := district.name, code := district.code }
             constituency := some { name := constituency.name, code := constituency.code }
             subCounty := some { name := subcounty.name, code := subcounty.code }
             electoralArea := some { name := area.name, code := area.code } }]
      else results)
    results

/-- Loop `constituency.subcounties.forEach(subcounty => ..)` of `searchLocations`. -/
def searchSubCounties (toLowerCase : String → String) (level : JSVal) (term : String)
    (district : District) (constituency : Constituency)
    (results : List SearchResult) : List SearchResult :=
  constituency.subcounties.foldl
    (fun results subcounty =>
      let results :=
        if levelSelects level "subcounty" && includes (toLowerCase subcounty.name) term then
          results ++
            [{ type := "subcounty"
               district := { name := district.name, code := district.code }
               constituency := some { name := constituency.name, code := constituency.code }
               subCounty := some { name := subcounty.name, code := subcounty.code }
               electoralArea := none }]
        else results
      searchElectoralAreas toLowerCase level term district constituency subcounty results)
    results

/-- Loop `district.constituencies.forEach(constituency => ..)` of `searchLocations`. -/
def searchConstituencies (toLowerCase : String → String) (level : JSVal) (term : String)
    (district : District) (results : List SearchResult) : List SearchResult :=
  district.constituencies.foldl
    (fun results constituency =>
      let results :=
        if levelSelects level "constituency" && includes (toLowerCase constituency.name) term then
          results ++
            [{ type := "constituency"
               district := { name := district.name, code := district.code }
               constituency := some { name := constituency.name, code := constituency.code }
               subCounty := none
               electoralArea := none }]
        else results
      searchSubCounties toLowerCase level term district constituency results)
    results

/-- Loop `this.data.districts.forEach(district => ..)` of `searchLocations`. -/
def searchDistricts (toLowerCase : String → String) (level : JSVal) (term : String)
    (districts : List District) (results : List SearchResult) : List SearchResult :=
  districts.foldl
    (fun results district =>
      let results :=
        if levelSelects level "district" && includes (toLowerCase district.name) term then
          results ++
            [{ type := "district"
               district := { name := district.name, code := district.code }
               constituency := none
               subCounty := none
               electoralArea := none }]
        else results
      searchConstituencies toLowerCase level term district results)
    results

/-- Method `searchLocations(searchTerm, level = 'all')`. The falsy values of
`searchTerm` (`undefined`, `null`, `""`) return `[]` before anything else is
evaluated; a non-empty string is lower-cased and the tree is traversed. -/
def searchLocations (toLowerCase : String → String) (self : UgandaLocationSelector)
    (searchTerm levelArg : JSVal) : Except Error (List SearchResult) :=
  match self._checkInitialized with
  | .error e => .error e
  | .ok _ =>
    match searchTerm with
    | .undefined => .ok []
    | .null => .ok []
    | .str searchTerm =>
      if searchTerm == "" then .ok []
      else
        let level := levelOrDefault levelArg
        let term := toLowerCase searchTerm
        match self.districts with
        | .error e => .error e
        | .ok districts => .ok (searchDistricts toLowerCase level term districts [])

/-- The three counters `totalConstituencies`, `totalSubCounties`,
`totalElectoralAreas` of `getStatistics`. -/
structure Totals where
  totalConstituencies : Nat
  totalSubCounties : Nat
  totalElectoralAreas : Nat
  deriving DecidableEq

/-- Loop `constituency.subcounties.forEach(subcounty => ..)` of `getStatistics`. -/
def countSubCounties (constituency : Constituency) (t : Totals) : Totals :=
  constituency.subcounties.foldl
    (fun t subcounty =>
      { t with totalElectoralAreas := t.totalElectoralAreas + subcounty.electoral_areas.length })
    t

/-- Loop `district.constituencies.forEach(constituency => ..)` of `getStatistics`. -/
def countConstituencies (district : District) (t : Totals) : Totals :=
  district.constituencies.foldl
    (fun t constituency =>
      countSubCounties constituency
        { t with totalSubCounties := t.totalSubCounties + constituency.subcounties.length })
    t

/-- Loop `this.data.districts.forEach(district => ..)` of `getStatistics`. -/
def countDistricts (districts : List District) (t : Totals) : Totals :=
  districts.foldl
    (fun t district =>
      countConstituencies district
        { t with totalConstituencies := t.totalConstituencies + district.constituencies.length })
    t

/-- Method `getStatistics()`. -/
def getStatistics (self : UgandaLocationSelector) : Except Error Statistics :=
  match self._checkInitialized with
  | .error e => .error e
  | .ok _ =>
    match self.districts with
    | .error e => .error e
    | .ok districts =>
      let t := countDistricts districts
        { totalConstituencies := 0, totalSubCounties := 0, totalElectoralAreas := 0 }
      .ok { districts := districts.length
            constituencies := t.totalConstituencies
            subCounties := t.totalSubCounties
            electoralAreas := t.totalElectoralAreas }

/-- An element of the array answered by the geocoding service: the three
members read by `getCoordinates`, all strings. -/
structure GeoResult where
  lat : String
  lon : String
  display_name : String
  deriving DecidableEq

/-- The object returned by `getCoordinates`; `Number` is the type of the values
of `parseFloat`. -/
structure Coordinates (Number : Type) where
  lat : Number
  lon : Number
  display_name : String

/-- What a call of `getCoordinates` does: the settled value of the returned
promise, and the URLs passed to `fetch`, in order. -/
structure GeocodingOutcome (Number : Type) where
  result : Except Error (Coordinates Number)
  requests : List String

/-- Method `getCoordinates(locationName)`. The environment is given by
`encodeURIComponent`, by `parseFloat`, and by `fetchJson url`, the outcome of
`fetch(url)` followed by `response.json()`: an error, or the parsed body, where
`none` is a body that is `null` and `some results` an array. The `catch` block
logs and rethrows, so the error is unchanged. -/
def getCoordinates {Number : Type} (encodeURIComponent : String → String)
    (parseFloat : String → Number)
    (fetchJson : String → Except Error (Option (List GeoResult)))
    (_self : UgandaLocationSelector) (locationName : JSVal) : GeocodingOutcome Number :=
  match locationName with
  | .undefined => { result := .error .locationNameRequired, requests := [] }
  | .null => { result := .error .locationNameRequired, requests := [] }
  | .str locationName =>
    if locationName == "" then { result := .error .locationNameRequired, requests := [] }
    else
      let encodedLocation := encodeURIComponent locationName
      let url := "https://nominatim.openstreetmap.org/search?format=json&q="
        ++ encodedLocation ++ "&limit=1"
      match fetchJson url with
      | .error error => { result := .error error, requests := [url] }
      | .ok data =>
        match data with
        | some (result :: _) =>
          { result := .ok { lat := parseFloat result.lat
                            lon := parseFloat result.lon
                            display_name := result.display_name }
            requests := [url] }
        | _ => { result := .error (.noCoordinatesFound locationName), requests := [url] }

end UgandaLocationSelector

/-! ## Loading -/

/-- A JSON value, as produced by `response.json()` or `JSON.parse`; a number is
kept as the text of its numeral. -/
inductive Json where
  | null : Json
  | bool (b : Bool) : Json
  | num (numeral : String) : Json
  | str (s : String) : Json
  | arr (items : List Json) : Json
  | obj (members : List (String × Json)) : Json

/-- The two fields of an instance as `init` assigns them: `this.data` holds
whatever value was parsed (`null` after construction). -/
structure LoadedFields where
  data : Json
  initialized : Bool

/-- What `init` depends on: whether `window` is defined, the outcome of
`fetch('./uganda_electoral_data.json')` followed by `response.json()`, and the
outcome of `fs.readFileSync` followed by `JSON.parse`. -/
structure LoadEnvironment where
  hasWindow : Bool
  fetchDataFile : Except Error Json
  readDataFile : Except Error Json

/-- The fields after the constructor. -/
def LoadedFields.new : LoadedFields :=
  { data := .null, initialized := false }

/-- Method `init()`: returns the fields after the call and the settled value of
the promise. When the load throws, nothing has been assigned and the `catch`
block rethrows the error. -/
def init (env : LoadEnvironment) (self : LoadedFields) : LoadedFields × Except Error Unit :=
  let loaded := if env.hasWindow then env.fetchDataFile else env.readDataFile
  match loaded with
  | .error error => (self, .error error)
  | .ok payload => ({ data := payload, initialized := true }, .ok ())

/-- Codes are unique within their parent (data model invariant): no two
districts share a code, and below every node no two children share a code. -/
def UniqueCodes (data : Data) : Prop :=
  (data.districts.map fun d => d.code).Nodup ∧
  ∀ d ∈ data.districts,
    (d.constituencies.map fun c => c.code).Nodup ∧
    ∀ c ∈ d.constituencies,
      (c.subcounties.map fun s => s.code).Nodup ∧
      ∀ s ∈ c.subcounties, (s.electoral_areas.map fun a => a.code).Nodup

instance (data : Data) : Decidable (UniqueCodes data) := by
  unfold UniqueCodes
  infer_instance

/-! ## Specification-side vocabulary -/

/-- All constituencies of the tree, district by district, in source order. -/
def Data.allConstituencies (data : Data) : List Constituency :=
  data.districts.flatMap fun d => d.constituencies

/-- All sub-counties of the tree, in source order. -/
def Data.allSubCounties (data : Data) : List SubCounty :=
  data.allConstituencies.flatMap fun c => c.subcounties

/-- All electoral areas of the tree, in source order. -/
def Data.allElectoralAreas (data : Data) : List ElectoralArea :=
  data.allSubCounties.flatMap fun s => s.electoral_areas

/-- The lower-cased `name` contains the lower-cased `term` as a contiguous
substring. -/
def NameMatches (toLowerCase : String → String) (term name : String) : Prop :=
  (toLowerCase term).data <:+: (toLowerCase name).data

instance (toLowerCase : String → String) (term name : String) :
    Decidable (NameMatches toLowerCase term name) := by
  unfold NameMatches
  infer_instance

/-- The level value `level` selects the level called `name`: it is that name,
or it is `'all'`. -/
def Selected (level : JSVal) (name : String) : Prop :=
  level = .str name ∨ level = .str "all"

instance (level : JSVal) (name : String) : Decidable (Selected level name) := by
  unfold Selected
  infer_instance

/-- The record of a district: type `district`, only the `district` entry. -/
def districtRecord (D : District) : SearchResult :=
  { type := "district"
    district := { name := D.name, code := D.code }
    constituency := none
    subCounty := none
    electoralArea := none }

/-- The record of a constituency `C` of district `D`. -/
def constituencyRecord (D : District) (C : Constituency) : SearchResult :=
  { type := "constituency"
    district := { name := D.name, code := D.code }
    constituency := some { name := C.name, code := C.code }
    subCounty := none
    electoralArea := none }

/-- The record of a sub-county `S` of constituency `C` of district `D`. -/
def subCountyRecord (D : District) (C : Constituency) (S : SubCounty) : SearchResult :=
  { type := "subcounty"
    district := { name := D.name, code := D.code }
    constituency := some { name := C.name, code := C.code }
    subCounty := some { name := S.name, code := S.code }
    electoralArea := none }

/-- The record of an electoral area `A` of `S` of `C` of `D`. -/
def electoralAreaRecord (D : District) (C : Constituency) (S : SubCounty)
    (A : ElectoralArea) : SearchResult :=
  { type := "electoral_area"
    district := { name := D.name, code := D.code }
    constituency := some { name := C.name, code := C.code }
    subCounty := some { name := S.name, code := S.code }
    electoralArea := some { name := A.name, code := A.code } }

/-- Depth-first pre-order below a sub-county: its own record if it matches,
then the records of its matching electoral areas in source order. -/
def preorderSubCounty (toLowerCase : String → String) (level : JSVal) (term : String)
    (D : District) (C : Constituency) (S : SubCounty) : List SearchResult :=
  (if Selected level "subcounty" ∧ NameMatches toLowerCase term S.name
    then [subCountyRecord D C S] else []) ++
  S.electoral_areas.flatMap fun A =>
    if Selected level "electoral_area" ∧ NameMatches toLowerCase term A.name
      then [electoralAreaRecord D C S A] else []

/-- Depth-first pre-order below a constituency: its own record if it matches,
then the pre-order of each of its sub-counties in source order. -/
def preorderConstituency (toLowerCase : String → String) (level : JSVal) (term : String)
    (D : District) (C : Constituency) : List SearchResult :=
  (if Selected level "constituency" ∧ NameMatches toLowerCase term C.name
    then [constituencyRecord D C] else []) ++
  C.subcounties.flatMap fun S => preorderSubCounty toLowerCase level term D C S

/-- Depth-first pre-order below a district: its own record if it matches, then
the pre-order of each of its constituencies in source order. -/
def preorderDistrict (toLowerCase : String → String) (level : JSVal) (term : String)
    (D : District) : List SearchResult :=
  (if Selected level "district" ∧ NameMatches toLowerCase term D.name
    then [districtRecord D] else []) ++
  D.constituencies.flatMap fun C => preorderConstituency toLowerCase level term D C

/-- Depth-first pre-order of the whole tree: the pre-order of each district in
source order. -/
def preorderRecords (toLowerCase : String → String) (level : JSVal) (term : String)
    (districts : List District) : List SearchResult :=
  districts.flatMap fun D => preorderDistrict toLowerCase level term D

/-- The member `key` of a JSON object; `none` when the value is not an object
or has no such member. -/
def Json.member (j : Json) (key : String) : Option Json :=
  match j with
  | .obj members => members.lookup key
  | _ => none

/-- Decodes every element of a list, or fails when one element fails. -/
def decodeAll {α β : Type} (f : α → Option β) : List α → Option (List β)
  | [] => some []
  | x :: xs =>
    match f x, decodeAll f xs with
    | some y, some ys => some (y :: ys)
    | _, _ => none

/-- An electoral area of the dataset source: an object with strings `name` and
`code`. -/
def decodeElectoralArea (j : Json) : Option ElectoralArea :=
  match j.member "name", j.member "code" with
  | some (.str name), some (.str code) => some { name := name, code := code }
  | _, _ => none

/-- A sub-county of the dataset source: strings `name` and `code`, and an array
`electoral_areas` of electoral areas. -/
def decodeSubCounty (j : Json) : Option SubCounty :=
  match j.member "name", j.member "code", j.member "electoral_areas" with
  | some (.str name), some (.str code), some (.arr items) =>
    (decodeAll decodeElectoralArea items).map fun areas =>
      { name := name, code := code, electoral_areas := areas }
  | _, _, _ => none

/-- A constituency of the dataset source: strings `name` and `code`, and an
array `subcounties` of sub-counties. -/
def decodeConstituency (j : Json) : Option Constituency :=
  match j.member "name", j.member "code", j.member "subcounties" with
  | some (.str name), some (.str code), some (.arr items) =>
    (decodeAll decodeSubCounty items).map fun subcounties =>
      { name := name, code := code, subcounties := subcounties }
  | _, _, _ => none

/-- A district of the dataset source: strings `name` and `code`, and an array
`constituencies` of constituencies. -/
def decodeDistrict (j : Json) : Option District :=
  match j.member "name", j.member "code", j.member "constituencies" with
  | some (.str name), some (.str code), some (.arr items) =>
    (decodeAll decodeConstituency items).map fun constituencies =>
      { name := name, code := code, constituencies := constituencies }
  | _, _, _ => none

/-- The dataset source: a document with top-level key `districts`, an array of
districts of the nested shape. -/
def decodeData (payload : Json) : Option Data :=
  match payload.member "districts" with
  | some (.arr items) => (decodeAll decodeDistrict items).map fun districts =>
      { districts := districts }
  | _ => none

/-- A payload is well-formed when it contains a `districts` list with the
nested shape of the data model. -/
def WellFormed (payload : Json) : Prop :=
  (decodeData payload).isSome = true

instance (payload : Json) : Decidable (WellFormed payload) := by
  unfold WellFormed
  infer_instance

/-- The selector on which the lookups are stated, for fields holding a
well-formed payload: its tree is the decoded payload. -/
def LoadedFields.toSelector (fields : LoadedFields) : UgandaLocationSelector :=
  { data := decodeData fields.data, initialized := fields.initialized }

/-! ## Example dataset -/

/-- Sample sub-county `Bubaare` with two electoral areas. -/
def sampleBubaare : SubCounty :=
  { name := "Bubaare", code := "S1"
    electoral_areas :=
      [ { name := "Kashaka", code := "E1" }, { name := "Mugarutsya", code := "E2" } ] }

/-- Sample sub-county `Rubaya` with one electoral area. -/
def sampleRubaya : SubCounty :=
  { name := "Rubaya", code := "S2"
    electoral_areas := [ { name := "Bunenero", code := "E1" } ] }

/-- Sample constituency `Kashari`. -/
def sampleKashari : Constituency :=
  { name := "Kashari", code := "C1", subcounties := [sampleBubaare, sampleRubaya] }

/-- Sample district `Mbarara` with two constituencies. -/
def sampleMbarara : District :=
  { name := "Mbarara", code := "027"
    constituencies :=
      [ sampleKashari
      , { name := "Mbarara Municipality", code := "C2"
          subcounties :=
            [ { name := "Kakoba", code := "S1"
                electoral_areas := [ { name := "Kakoba Ward", code := "E1" } ] } ] } ] }

/-- Sample district `Kampala`, whose only sub-county has no electoral area. -/
def sampleKampala : District :=
  { name := "Kampala", code := "012"
    constituencies :=
      [ { name := "Kawempe", code := "C1"
          subcounties :=
            [ { name := "Kawempe Division", code := "S1", electoral_areas := [] } ] } ] }

/-- A small dataset with two districts, used to instantiate the theorems. -/
def sampleData : Data :=
  { districts := [sampleMbarara, sampleKampala] }

/-- A selector after a successful `init()` that loaded `sampleData`. -/
def sampleSelector : UgandaLocationSelector :=
  { data := some sampleData, initialized := true }

/-- ASCII lower-casing, an instance of the `toLowerCase` parameter. -/
def asciiLower (s : String) : String :=
  String.mk (s.data.map Char.toLower)

/-- A well-formed payload with one district, one constituency, one sub-county
and one electoral area. -/
def samplePayload : Json :=
  .obj [("districts", .arr
    [.obj [("name", .str "Kampala"), ("code", .str "012"), ("constituencies", .arr
      [.obj [("name", .str "Kawempe"), ("code", .str "C1"), ("subcounties", .arr
        [.obj [("name", .str "Kawempe Division"), ("code", .str "S1"),
               ("electoral_areas", .arr
                 [.obj [("name", .str "Bwaise"), ("code", .str "E1")]])]])]])]])]

/-- A payload that parses but has no `districts` key. -/
def malformedPayload : Json :=
  .obj [("version", .str "1.0.4")]

/-- A Node.js environment whose data file parses to `payload`. -/
def nodeEnvironment (payload : Json) : LoadEnvironment :=
  { hasWindow := false
    fetchDataFile := .error (.external "fetch is not defined")
    readDataFile := .ok payload }

/-- A geocoding service answering every request with the one-element array of
the example response. -/
def sampleService (_url : String) :
    Except Error (Option (List UgandaLocationSelector.GeoResult)) :=
  .ok (some [{ lat := "0.3", lon := "32.6", display_name := "X" }])

/-- The values of `parseFloat` at the two numerals of the example response,
as rational numbers; an instance of the `parseFloat` parameter. -/
def sampleParseFloat (s : String) : ℚ :=
  if s = "0.3" then 3 / 10 else if s = "32.6" then 163 / 5 else 0

end UgandaLocation

namespace UgandaLocation

open UgandaLocationSelector

/-! ## Auxiliary facts about `find` -/

/-- Searching for the code of a member of a list whose codes are pairwise
distinct finds that member. -/
theorem find?_code_of_nodup {α : Type} (code : α → String) :
    ∀ (l : List α) (x : α), (l.map code).Nodup → x ∈ l →
      l.find? (fun y => JSVal.strictEq (code y) (.str (code x))) = some x := by
  intro l
  induction l with
  | nil => intro x _ hx; simp at hx
  | cons y ys ih =>
    intro x hnd hx
    rw [List.map_cons, List.nodup_cons] at hnd
    rcases List.mem_cons.mp hx with rfl | hmem
    · simp [List.find?, JSVal.strictEq]
    · have hne : code y ≠ code x := by
        intro heq
        exact hnd.1 (heq ▸ List.mem_map_of_mem code hmem)
      have hb : ¬ (JSVal.strictEq (code y) (.str (code x)) = true) := by
        simp [JSVal.strictEq, hne]
      rw [List.find?_cons_of_neg (p := fun y => JSVal.strictEq (code y) (.str (code x))) ys hb]
      exact ih x hnd.2 hmem

/-- When no member of the list has a code strictly equal to `v`, `find` returns
`undefined`. -/
theorem find?_code_of_unmatched {α : Type} (code : α → String) (l : List α) (v : JSVal)
    (h : ∀ y ∈ l, JSVal.strictEq (code y) v = false) :
    l.find? (fun y => JSVal.strictEq (code y) v) = none := by
  rw [List.find?_eq_none]
  intro y hy
  simp [h y hy]

/-! ## Auxiliary facts about the loops -/

/-- The method `includes` decides contiguous containment. -/
theorem includes_iff (s t : String) : includes s t = true ↔ t.data <:+: s.data := by
  unfold includes
  rw [List.any_eq_true]
  constructor
  · rintro ⟨u, hu, hp⟩
    rw [List.mem_tails] at hu
    rw [List.isPrefixOf_iff_prefix] at hp
    exact List.infix_iff_prefix_suffix.mpr ⟨u, hp, hu⟩
  · intro h
    obtain ⟨u, hp, hu⟩ := List.infix_iff_prefix_suffix.mp h
    exact ⟨u, (List.mem_tails _ _).mpr hu, List.isPrefixOf_iff_prefix.mpr hp⟩

/-- The guard of a push, read as a proposition. -/
theorem guard_iff (toLowerCase : String → String) (level : JSVal) (lvl searchTerm name : String) :
    (levelSelects level lvl && includes (toLowerCase name) (toLowerCase searchTerm)) = true ↔
      Selected level lvl ∧ NameMatches toLowerCase searchTerm name := by
  rw [Bool.and_eq_true, includes_iff]
  unfold levelSelects Selected NameMatches
  rw [Bool.or_eq_true]
  cases level with
  | undefined => simp [JSVal.strictEq]
  | null => simp [JSVal.strictEq]
  | str s =>
    have h1 : ∀ a : String, JSVal.strictEq a (.str s) = true ↔ JSVal.str s = .str a := by
      intro a
      show (a == s) = true ↔ _
      rw [beq_iff_eq, JSVal.str.injEq]
      exact eq_comm
    rw [h1, h1]

/-- A loop that appends to its accumulator a list depending on the element
only produces the accumulator followed by the concatenation of these lists. -/
theorem foldl_append_eq {α β : Type} (step : List β → α → List β) (g : α → List β)
    (hstep : ∀ acc x, step acc x = acc ++ g x) :
    ∀ (l : List α) (acc : List β), l.foldl step acc = acc ++ l.flatMap g := by
  intro l
  induction l with
  | nil => intro acc; simp
  | cons x xs ih =>
    intro acc
    rw [List.foldl_cons, ih, hstep, List.flatMap_cons, List.append_assoc]

/-- The electoral-area loop appends the matching electoral areas of the
sub-county, in source order. -/
theorem searchElectoralAreas_eq (toLowerCase : String → String) (level : JSVal)
    (searchTerm : String) (D : District) (C : Constituency) (S : SubCounty)
    (acc : List SearchResult) :
    searchElectoralAreas toLowerCase level (toLowerCase searchTerm) D C S acc =
      acc ++ S.electoral_areas.flatMap fun A =>
        if Selected level "electoral_area" ∧ NameMatches toLowerCase searchTerm A.name
          then [electoralAreaRecord D C S A] else [] := by
  unfold searchElectoralAreas
  apply foldl_append_eq
  intro acc A
  by_cases h : Selected level "electoral_area" ∧ NameMatches toLowerCase searchTerm A.name
  · rw [if_pos ((guard_iff toLowerCase level "electoral_area" searchTerm A.name).mpr h),
      if_pos h]
    rfl
  · rw [if_neg (fun hg => h ((guard_iff toLowerCase level "electoral_area" searchTerm
      A.name).mp hg)), if_neg h, List.append_nil]

/-- The sub-county loop appends the pre-order of each sub-county. -/
theorem searchSubCounties_eq (toLowerCase : String → String) (level : JSVal)
    (searchTerm : String) (D : District) (C : Constituency) (acc : List SearchResult) :
    searchSubCounties toLowerCase level (toLowerCase searchTerm) D C acc =
      acc ++ C.subcounties.flatMap fun S =>
        preorderSubCounty toLowerCase level searchTerm D C S := by
  unfold searchSubCounties
  apply foldl_append_eq
  intro acc S
  show searchElectoralAreas toLowerCase level (toLowerCase searchTerm) D C S _ = _
  rw [searchElectoralAreas_eq, preorderSubCounty, ← List.append_assoc]
  congr 1
  by_cases h : Selected level "subcounty" ∧ NameMatches toLowerCase searchTerm S.name
  · rw [if_pos ((guard_iff toLowerCase level "subcounty" searchTerm S.name).mpr h), if_pos h]
    rfl
  · rw [if_neg (fun hg => h ((guard_iff toLowerCase level "subcounty" searchTerm
      S.name).mp hg)), if_neg h, List.append_nil]

/-- The constituency loop appends the pre-order of each constituency. -/
theorem searchConstituencies_eq (toLowerCase : String → String) (level : JSVal)
    (searchTerm : String) (D : District) (acc : List SearchResult) :
    searchConstituencies toLowerCase level (toLowerCase searchTerm) D acc =
      acc ++ D.constituencies.flatMap fun C =>
        preorderConstituency toLowerCase level searchTerm D C := by
  unfold searchConstituencies
  apply foldl_append_eq
  intro acc C
  show searchSubCounties toLowerCase level (toLowerCase searchTerm) D C _ = _
  rw [searchSubCounties_eq, preorderConstituency, ← List.append_assoc]
  congr 1
  by_cases h : Selected level "constituency" ∧ NameMatches toLowerCase searchTerm C.name
  · rw [if_pos ((guard_iff toLowerCase level "constituency" searchTerm C.name).mpr h),
      if_pos h]
    rfl
  · rw [if_neg (fun hg => h ((guard_iff toLowerCase level "constituency" searchTerm
      C.name).mp hg)), if_neg h, List.append_nil]

/-- The district loop appends the pre-order of each district. -/
theorem searchDistricts_eq (toLowerCase : String → String) (level : JSVal)
    (searchTerm : String) (districts : List District) (acc : List SearchResult) :
    searchDistricts toLowerCase level (toLowerCase searchTerm) districts acc =
      acc ++ preorderRecords toLowerCase level searchTerm districts := by
  unfold searchDistricts preorderRecords
  apply foldl_append_eq
  intro acc D
  show searchConstituencies toLowerCase level (toLowerCase searchTerm) D _ = _
  rw [searchConstituencies_eq, preorderDistrict, ← List.append_assoc]
  congr 1
  by_cases h : Selected level "district" ∧ NameMatches toLowerCase searchTerm D.name
  · rw [if_pos ((guard_iff toLowerCase level "district" searchTerm D.name).mpr h), if_pos h]
    rfl
  · rw [if_neg (fun hg => h ((guard_iff toLowerCase level "district" searchTerm
      D.name).mp hg)), if_neg h, List.append_nil]

/-- On an initialized selector holding `data`, a search for a non-empty term
returns the pre-order records of the tree under the effective level. -/
theorem searchLocations_nonempty (toLowerCase : String → String)
    (self : UgandaLocationSelector) (data : Data)
    (hinit : self.initialized = true) (hdata : self.data = some data)
    (searchTerm : String) (hne : searchTerm ≠ "") (levelArg : JSVal) :
    self.searchLocations toLowerCase (.str searchTerm) levelArg =
      .ok (preorderRecords toLowerCase (levelOrDefault levelArg) searchTerm data.districts) := by
  have h := searchDistricts_eq toLowerCase (levelOrDefault levelArg) searchTerm
    data.districts []
  rw [List.nil_append] at h
  simp [searchLocations, _checkInitialized, districts, hinit, hdata, hne, h]

/-- On an initialized selector, a search for a falsy term (`undefined`, `null`
or the empty string) returns `[]`. -/
theorem searchLocations_falsy (toLowerCase : String → String)
    (self : UgandaLocationSelector) (hinit : self.initialized = true)
    (searchTerm levelArg : JSVal) (hf : searchTerm.truthy = false) :
    self.searchLocations toLowerCase searchTerm levelArg = .ok [] := by
  cases searchTerm with
  | undefined => simp [searchLocations, _checkInitialized, hinit]
  | null => simp [searchLocations, _checkInitialized, hinit]
  | str t =>
    have ht : t = "" := by simpa [JSVal.truthy] using hf
    simp [searchLocations, _checkInitialized, hinit, ht]

/-! ## Auxiliary facts about the pre-order records -/

/-- Membership in a guarded singleton. -/
theorem mem_guarded_singleton {β : Type} (P : Prop) [Decidable P] (a x : β) :
    x ∈ (if P then [a] else []) ↔ P ∧ x = a := by
  by_cases h : P <;> simp [h]

/-- Length of a guarded singleton. -/
theorem length_guarded_singleton {β : Type} (P Q : Prop) [Decidable P] [Decidable Q] (a : β) :
    (if P ∧ Q then [a] else []).length = if P then (if Q then 1 else 0) else 0 := by
  by_cases hP : P <;> by_cases hQ : Q <;> simp [hP, hQ]

/-- Number of records produced by a guarded traversal of a list of leaves. -/
theorem length_flatMap_guarded {α β : Type} (P : Prop) [Decidable P] (m : α → Prop)
    [DecidablePred m] (g : α → β) (l : List α) :
    (l.flatMap fun x => if P ∧ m x then [g x] else []).length =
      if P then l.countP (fun x => decide (m x)) else 0 := by
  induction l with
  | nil => simp
  | cons x xs ih =>
    rw [List.flatMap_cons, List.length_append, ih, length_guarded_singleton, List.countP_cons]
    by_cases hP : P <;> by_cases hm : m x <;> simp [hP, hm, Nat.add_comm]

/-- Records below a sub-county. -/
theorem mem_preorderSubCounty (toLowerCase : String → String) (level : JSVal) (t : String)
    (D : District) (C : Constituency) (S : SubCounty) (x : SearchResult) :
    x ∈ preorderSubCounty toLowerCase level t D C S ↔
      (Selected level "subcounty" ∧ NameMatches toLowerCase t S.name ∧
        x = subCountyRecord D C S) ∨
      (Selected level "electoral_area" ∧ ∃ A ∈ S.electoral_areas,
        NameMatches toLowerCase t A.name ∧ x = electoralAreaRecord D C S A) := by
  simp only [preorderSubCounty, List.mem_append, List.mem_flatMap, mem_guarded_singleton]
  constructor
  · rintro (⟨⟨h1, h2⟩, h3⟩ | ⟨A, hA, ⟨h1, h2⟩, h3⟩)
    · exact Or.inl ⟨h1, h2, h3⟩
    · exact Or.inr ⟨h1, A, hA, h2, h3⟩
  · rintro (⟨h1, h2, h3⟩ | ⟨h1, A, hA, h2, h3⟩)
    · exact Or.inl ⟨⟨h1, h2⟩, h3⟩
    · exact Or.inr ⟨A, hA, ⟨h1, h2⟩, h3⟩

/-- Records below a constituency. -/
theorem mem_preorderConstituency (toLowerCase : String → String) (level : JSVal) (t : String)
    (D : District) (C : Constituency) (x : SearchResult) :
    x ∈ preorderConstituency toLowerCase level t D C ↔
      (Selected level "constituency" ∧ NameMatches toLowerCase t C.name ∧
        x = constituencyRecord D C) ∨
      (Selected level "subcounty" ∧ ∃ S ∈ C.subcounties,
        NameMatches toLowerCase t S.name ∧ x = subCountyRecord D C S) ∨
      (Selected level "electoral_area" ∧ ∃ S ∈ C.subcounties, ∃ A ∈ S.electoral_areas,
        NameMatches toLowerCase t A.name ∧ x = electoralAreaRecord D C S A) := by
  simp only [preorderConstituency, List.mem_append, List.mem_flatMap, mem_guarded_singleton,
    mem_preorderSubCounty]
  constructor
  · rintro (⟨⟨h1, h2⟩, h3⟩ | ⟨S, hS, (⟨h1, h2, h3⟩ | ⟨h1, A, hA, h2, h3⟩)⟩)
    · exact Or.inl ⟨h1, h2, h3⟩
    · exact Or.inr (Or.inl ⟨h1, S, hS, h2, h3⟩)
    · exact Or.inr (Or.inr ⟨h1, S, hS, A, hA, h2, h3⟩)
  · rintro (⟨h1, h2, h3⟩ | ⟨h1, S, hS, h2, h3⟩ | ⟨h1, S, hS, A, hA, h2, h3⟩)
    · exact Or.inl ⟨⟨h1, h2⟩, h3⟩
    · exact Or.inr ⟨S, hS, Or.inl ⟨h1, h2, h3⟩⟩
    · exact Or.inr ⟨S, hS, Or.inr ⟨h1, A, hA, h2, h3⟩⟩

/-- Records of the whole tree: a record is returned exactly when it is the
record of a matching node at a selected level, with its ancestors. -/
theorem mem_preorderRecords (toLowerCase : String → String) (level : JSVal) (t : String)
    (ds : List District) (x : SearchResult) :
    x ∈ preorderRecords toLowerCase level t ds ↔
      (Selected level "district" ∧ ∃ D ∈ ds,
        NameMatches toLowerCase t D.name ∧ x = districtRecord D) ∨
      (Selected level "constituency" ∧ ∃ D ∈ ds, ∃ C ∈ D.constituencies,
        NameMatches toLowerCase t C.name ∧ x = constituencyRecord D C) ∨
      (Selected level "subcounty" ∧ ∃ D ∈ ds, ∃ C ∈ D.constituencies, ∃ S ∈ C.subcounties,
        NameMatches toLowerCase t S.name ∧ x = subCountyRecord D C S) ∨
      (Selected level "electoral_area" ∧ ∃ D ∈ ds, ∃ C ∈ D.constituencies,
        ∃ S ∈ C.subcounties, ∃ A ∈ S.electoral_areas,
        NameMatches toLowerCase t A.name ∧ x = electoralAreaRecord D C S A) := by
  simp only [preorderRecords, preorderDistrict, List.mem_append, List.mem_flatMap,
    mem_guarded_singleton, mem_preorderConstituency]
  constructor
  · rintro ⟨D, hD, (⟨⟨h1, h2⟩, h3⟩ | ⟨C, hC, (⟨h1, h2, h3⟩ | ⟨h1, S, hS, h2, h3⟩ |
      ⟨h1, S, hS, A, hA, h2, h3⟩)⟩)⟩
    · exact Or.inl ⟨h1, D, hD, h2, h3⟩
    · exact Or.inr (Or.inl ⟨h1, D, hD, C, hC, h2, h3⟩)
    · exact Or.inr (Or.inr (Or.inl ⟨h1, D, hD, C, hC, S, hS, h2, h3⟩))
    · exact Or.inr (Or.inr (Or.inr ⟨h1, D, hD, C, hC, S, hS, A, hA, h2, h3⟩))
  · rintro (⟨h1, D, hD, h2, h3⟩ | ⟨h1, D, hD, C, hC, h2, h3⟩ |
      ⟨h1, D, hD, C, hC, S, hS, h2, h3⟩ | ⟨h1, D, hD, C, hC, S, hS, A, hA, h2, h3⟩)
    · exact ⟨D, hD, Or.inl ⟨⟨h1, h2⟩, h3⟩⟩
    · exact ⟨D, hD, Or.inr ⟨C, hC, Or.inl ⟨h1, h2, h3⟩⟩⟩
    · exact ⟨D, hD, Or.inr ⟨C, hC, Or.inr (Or.inl ⟨h1, S, hS, h2, h3⟩)⟩⟩
    · exact ⟨D, hD, Or.inr ⟨C, hC, Or.inr (Or.inr ⟨h1, S, hS, A, hA, h2, h3⟩)⟩⟩

/-- Number of records below a list of sub-counties. -/
theorem length_preorderSubCounties (toLowerCase : String → String) (level : JSVal)
    (t : String) (D : District) (C : Constituency) (l : List SubCounty) :
    (l.flatMap fun S => preorderSubCounty toLowerCase level t D C S).length =
      (if Selected level "subcounty"
        then l.countP (fun S => decide (NameMatches toLowerCase t S.name)) else 0) +
      (if Selected level "electoral_area"
        then (l.flatMap fun S => S.electoral_areas).countP
          (fun A => decide (NameMatches toLowerCase t A.name)) else 0) := by
  induction l with
  | nil => simp
  | cons S Ss ih =>
    rw [List.flatMap_cons, List.length_append, ih, preorderSubCounty, List.length_append,
      length_guarded_singleton, length_flatMap_guarded, List.flatMap_cons, List.countP_append,
      List.countP_cons]
    by_cases h1 : Selected level "subcounty" <;>
    by_cases h2 : Selected level "electoral_area" <;>
    by_cases h3 : NameMatches toLowerCase t S.name <;>
    simp [h1, h2, h3] <;> omega

/-- Number of records below a list of constituencies. -/
theorem length_preorderConstituencies (toLowerCase : String → String) (level : JSVal)
    (t : String) (D : District) (l : List Constituency) :
    (l.flatMap fun C => preorderConstituency toLowerCase level t D C).length =
      (if Selected level "constituency"
        then l.countP (fun C => decide (NameMatches toLowerCase t C.name)) else 0) +
      (if Selected level "subcounty"
        then (l.flatMap fun C => C.subcounties).countP
          (fun S => decide (NameMatches toLowerCase t S.name)) else 0) +
      (if Selected level "electoral_area"
        then ((l.flatMap fun C => C.subcounties).flatMap fun S => S.electoral_areas).countP
          (fun A => decide (NameMatches toLowerCase t A.name)) else 0) := by
  induction l with
  | nil => simp
  | cons C Cs ih =>
    rw [List.flatMap_cons, List.length_append, ih, preorderConstituency, List.length_append,
      length_guarded_singleton, length_preorderSubCounties, List.flatMap_cons,
      List.flatMap_append, List.countP_append, List.countP_append, List.countP_cons]
    by_cases h1 : Selected level "constituency" <;>
    by_cases h2 : Selected level "subcounty" <;>
    by_cases h3 : Selected level "electoral_area" <;>
    by_cases h4 : NameMatches toLowerCase t C.name <;>
    simp [h1, h2, h3, h4] <;> omega

/-- Number of records of the whole tree: the matching nodes of the selected
levels. -/
theorem length_preorderRecords (toLowerCase : String → String) (level : JSVal)
    (t : String) (l : List District) :
    (preorderRecords toLowerCase level t l).length =
      (if Selected level "district"
        then l.countP (fun D => decide (NameMatches toLowerCase t D.name)) else 0) +
      (if Selected level "constituency"
        then (l.flatMap fun D => D.constituencies).countP
          (fun C => decide (NameMatches toLowerCase t C.name)) else 0) +
      (if Selected level "subcounty"
        then ((l.flatMap fun D => D.constituencies).flatMap fun C => C.subcounties).countP
          (fun S => decide (NameMatches toLowerCase t S.name)) else 0) +
      (if Selected level "electoral_area"
        then (((l.flatMap fun D => D.constituencies).flatMap fun C => C.subcounties).flatMap
          fun S => S.electoral_areas).countP
          (fun A => decide (NameMatches toLowerCase t A.name)) else 0) := by
  unfold preorderRecords
  induction l with
  | nil => simp
  | cons D Ds ih =>
    rw [List.flatMap_cons, List.length_append, ih, preorderDistrict, List.length_append,
      length_guarded_singleton, length_preorderConstituencies, List.flatMap_cons,
      List.flatMap_append, List.flatMap_append, List.countP_append, List.countP_append,
      List.countP_append, List.countP_cons]
    by_cases h1 : Selected level "district" <;>
    by_cases h2 : Selected level "constituency" <;>
    by_cases h3 : Selected level "subcounty" <;>
    by_cases h4 : Selected level "electoral_area" <;>
    by_cases h5 : NameMatches toLowerCase t D.name <;>
    simp [h1, h2, h3, h4, h5] <;> omega

/-! ## Auxiliary facts about the counters -/

/-- The sub-county loop of `getStatistics` adds the number of electoral areas
of each sub-county. -/
theorem foldl_countSubCounties (l : List SubCounty) (t : Totals) :
    l.foldl (fun t subcounty =>
        { t with totalElectoralAreas := t.totalElectoralAreas + subcounty.electoral_areas.length })
      t =
      { t with totalElectoralAreas :=
          t.totalElectoralAreas + (l.map fun s => s.electoral_areas.length).sum } := by
  induction l generalizing t with
  | nil => simp
  | cons x xs ih => simp [List.foldl_cons, ih, Nat.add_assoc]

/-- The constituency loop of `getStatistics` adds the number of sub-counties
and of electoral areas below each constituency. -/
theorem foldl_countConstituencies (l : List Constituency) (t : Totals) :
    l.foldl (fun t constituency =>
        countSubCounties constituency
          { t with totalSubCounties := t.totalSubCounties + constituency.subcounties.length })
      t =
      { totalConstituencies := t.totalConstituencies
        totalSubCounties := t.totalSubCounties + (l.map fun c => c.subcounties.length).sum
        totalElectoralAreas := t.totalElectoralAreas +
          ((l.flatMap fun c => c.subcounties).map fun s => s.electoral_areas.length).sum } := by
  induction l generalizing t with
  | nil => simp
  | cons x xs ih =>
    rw [List.foldl_cons, ih]
    simp [countSubCounties, foldl_countSubCounties, Nat.add_assoc]

/-- The district loop of `getStatistics` adds the number of nodes below each
district, level by level. -/
theorem countDistricts_eq (l : List District) (t : Totals) :
    countDistricts l t =
      { totalConstituencies :=
          t.totalConstituencies + (l.map fun d => d.constituencies.length).sum
        totalSubCounties := t.totalSubCounties +
          ((l.flatMap fun d => d.constituencies).map fun c => c.subcounties.length).sum
        totalElectoralAreas := t.totalElectoralAreas +
          (((l.flatMap fun d => d.constituencies).flatMap fun c => c.subcounties).map
            fun s => s.electoral_areas.length).sum } := by
  unfold countDistricts
  induction l generalizing t with
  | nil => simp
  | cons x xs ih =>
    rw [List.foldl_cons, ih]
    simp [countConstituencies, foldl_countConstituencies, Nat.add_assoc]

/-! ## Readiness check -/

/-- C1: on a selector whose `initialized` flag is false, each of `getDistricts`,
`getConstituencies`, `getSubCounties`, `getElectoralAreas`,
`getLocationHierarchy`, `searchLocations` and `getStatistics` throws the
not-initialized error, for all arguments (empty, `null` and omitted ones
included); none of them returns a value. -/
theorem lookups_fail_before_init (toLowerCase : String → String)
    (self : UgandaLocationSelector) (h : self.initialized = false)
    (d c s e term level : JSVal) :
    self.getDistricts = .error .notInitialized ∧
    self.getConstituencies d = .error .notInitialized ∧
    self.getSubCounties d c = .error .notInitialized ∧
    self.getElectoralAreas d c s = .error .notInitialized ∧
    self.getLocationHierarchy d c s e = .error .notInitialized ∧
    self.searchLocations toLowerCase term level = .error .notInitialized ∧
    self.getStatistics = .error .notInitialized := by
  simp [getDistricts, getConstituencies, getSubCounties, getElectoralAreas,
    getLocationHierarchy, searchLocations, getStatistics, _checkInitialized, h]

/-- C1 instantiated: a freshly constructed selector, with empty and `null`
arguments. -/
theorem lookups_fail_before_init_witness :
    UgandaLocationSelector.new.initialized = false ∧
    (UgandaLocationSelector.new.getDistricts = .error .notInitialized ∧
     UgandaLocationSelector.new.getConstituencies (.str "") = .error .notInitialized ∧
     UgandaLocationSelector.new.getSubCounties (.str "") .null = .error .notInitialized ∧
     UgandaLocationSelector.new.getElectoralAreas (.str "") .null .undefined
       = .error .notInitialized ∧
     UgandaLocationSelector.new.getLocationHierarchy (.str "") .null .undefined (.str "E1")
       = .error .notInitialized ∧
     UgandaLocationSelector.new.searchLocations asciiLower (.str "") .undefined
       = .error .notInitialized ∧
     UgandaLocationSelector.new.getStatistics = .error .notInitialized) :=
  ⟨rfl, lookups_fail_before_init asciiLower UgandaLocationSelector.new rfl
    (.str "") .null .undefined (.str "E1") (.str "") .undefined⟩

/-! ## Listing operations -/

/-- C2: on an initialized selector holding a dataset, `getConstituencies`
returns `[]` (and does not throw) for the empty string, for `null`, for
`undefined`, and for every non-empty code that is the code of no district. -/
theorem getConstituencies_empty_absent_unmatched (self : UgandaLocationSelector) (data : Data)
    (hinit : self.initialized = true) (hdata : self.data = some data) :
    self.getConstituencies (.str "") = .ok [] ∧
    self.getConstituencies .null = .ok [] ∧
    self.getConstituencies .undefined = .ok [] ∧
    ∀ code : String, code ≠ "" → (∀ d ∈ data.districts, d.code ≠ code) →
      self.getConstituencies (.str code) = .ok [] := by
  refine ⟨?_, ?_, ?_, ?_⟩
  · simp [getConstituencies, _checkInitialized, hinit, JSVal.truthy]
  · simp [getConstituencies, _checkInitialized, hinit, JSVal.truthy]
  · simp [getConstituencies, _checkInitialized, hinit, JSVal.truthy]
  · intro code hne hun
    have hfind : data.districts.find? (fun d => JSVal.strictEq d.code (.str code)) = none :=
      find?_code_of_unmatched (fun d : District => d.code) data.districts (.str code)
        (fun y hy => by simp [JSVal.strictEq, hun y hy])
    simp [getConstituencies, _checkInitialized, districts, hinit, hdata, JSVal.truthy, hne,
      hfind]

/-- C2 instantiated on the sample dataset, with the unmatched code `"999"`. -/
theorem getConstituencies_empty_absent_unmatched_witness :
    sampleSelector.getConstituencies (.str "") = .ok [] ∧
    sampleSelector.getConstituencies .null = .ok [] ∧
    sampleSelector.getConstituencies .undefined = .ok [] ∧
    sampleSelector.getConstituencies (.str "999") = .ok [] :=
  have h := getConstituencies_empty_absent_unmatched sampleSelector sampleData rfl rfl
  ⟨h.1, h.2.1, h.2.2.1, h.2.2.2 "999" (by decide) (by decide)⟩

/-- C4: on an initialized selector, for a non-empty `districtCode` that is the
code of some district, `getConstituencies` returns a sequence as long as the
constituency list of the first district with that code, whose `i`-th element is
the `{name, code}` of the `i`-th constituency of that district. -/
theorem getConstituencies_matched (self : UgandaLocationSelector) (data : Data)
    (hinit : self.initialized = true) (hdata : self.data = some data)
    (code : String) (hne : code ≠ "") (hex : ∃ d ∈ data.districts, d.code = code) :
    ∃ (D : District) (r : List Entry),
      data.districts.find? (fun d => d.code == code) = some D ∧
      self.getConstituencies (.str code) = .ok r ∧
      r.length = D.constituencies.length ∧
      ∀ i : Nat, ∀ hi : i < D.constituencies.length,
        r[i]? = some { name := (D.constituencies.get ⟨i, hi⟩).name
                       code := (D.constituencies.get ⟨i, hi⟩).code } := by
  obtain ⟨d, hd, hcode⟩ := hex
  have hsome : (data.districts.find? (fun d => d.code == code)).isSome = true := by
    rw [List.find?_isSome]
    exact ⟨d, hd, by simp [hcode]⟩
  obtain ⟨D, hD⟩ := Option.isSome_iff_exists.mp hsome
  have hD2 : data.districts.find? (fun d => JSVal.strictEq d.code (.str code)) = some D := hD
  refine ⟨D, D.constituencies.map fun c => { name := c.name, code := c.code }, hD, ?_, ?_, ?_⟩
  · simp [getConstituencies, _checkInitialized, districts, hinit, hdata, JSVal.truthy, hne, hD2]
  · simp
  · intro i hi
    simp [List.getElem?_map, List.getElem?_eq_getElem hi]

/-- C4 instantiated on the sample dataset at district code `"027"`. -/
theorem getConstituencies_matched_witness :
    ∃ (D : District) (r : List Entry),
      sampleData.districts.find? (fun d => d.code == "027") = some D ∧
      sampleSelector.getConstituencies (.str "027") = .ok r ∧
      r.length = D.constituencies.length ∧
      ∀ i : Nat, ∀ hi : i < D.constituencies.length,
        r[i]? = some { name := (D.constituencies.get ⟨i, hi⟩).name
                       code := (D.constituencies.get ⟨i, hi⟩).code } :=
  getConstituencies_matched sampleSelector sampleData rfl rfl "027" (by decide)
    ⟨_, List.mem_cons_self _ _, rfl⟩

/-- C5: on an initialized selector, `getSubCounties` and `getElectoralAreas`
return `[]` when one of their code arguments is falsy (empty or absent) or when
a link of the descent finds no node; otherwise they return a sequence as long
as the children list of the node reached, whose `i`-th element is the
`{name, code}` of the `i`-th child. -/
theorem getSubCounties_getElectoralAreas_descent (self : UgandaLocationSelector) (data : Data)
    (hinit : self.initialized = true) (hdata : self.data = some data) (d c s : JSVal) :
    ((d.truthy = false ∨ c.truthy = false) → self.getSubCounties d c = .ok []) ∧
    ((∀ x ∈ data.districts, JSVal.strictEq x.code d = false) →
      self.getSubCounties d c = .ok []) ∧
    (∀ D, data.districts.find? (fun x => JSVal.strictEq x.code d) = some D →
      (∀ x ∈ D.constituencies, JSVal.strictEq x.code c = false) →
      self.getSubCounties d c = .ok []) ∧
    (∀ D C, d.truthy = true → c.truthy = true →
      data.districts.find? (fun x => JSVal.strictEq x.code d) = some D →
      D.constituencies.find? (fun x => JSVal.strictEq x.code c) = some C →
      ∃ r, self.getSubCounties d c = .ok r ∧ r.length = C.subcounties.length ∧
        ∀ i : Nat, ∀ hi : i < C.subcounties.length,
          r[i]? = some { name := (C.subcounties.get ⟨i, hi⟩).name
                         code := (C.subcounties.get ⟨i, hi⟩).code }) ∧
    ((d.truthy = false ∨ c.truthy = false ∨ s.truthy = false) →
      self.getElectoralAreas d c s = .ok []) ∧
    ((∀ x ∈ data.districts, JSVal.strictEq x.code d = false) →
      self.getElectoralAreas d c s = .ok []) ∧
    (∀ D, data.districts.find? (fun x => JSVal.strictEq x.code d) = some D →
      (∀ x ∈ D.constituencies, JSVal.strictEq x.code c = false) →
      self.getElectoralAreas d c s = .ok []) ∧
    (∀ D C, data.districts.find? (fun x => JSVal.strictEq x.code d) = some D →
      D.constituencies.find? (fun x => JSVal.strictEq x.code c) = some C →
      (∀ x ∈ C.subcounties, JSVal.strictEq x.code s = false) →
      self.getElectoralAreas d c s = .ok []) ∧
    (∀ D C S, d.truthy = true → c.truthy = true → s.truthy = true →
      data.districts.find? (fun x => JSVal.strictEq x.code d) = some D →
      D.constituencies.find? (fun x => JSVal.strictEq x.code c) = some C →
      C.subcounties.find? (fun x => JSVal.strictEq x.code s) = some S →
      ∃ r, self.getElectoralAreas d c s = .ok r ∧ r.length = S.electoral_areas.length ∧
        ∀ i : Nat, ∀ hi : i < S.electoral_areas.length,
          r[i]? = some { name := (S.electoral_areas.get ⟨i, hi⟩).name
                         code := (S.electoral_areas.get ⟨i, hi⟩).code }) := by
  refine ⟨?_, ?_, ?_, ?_, ?_, ?_, ?_, ?_, ?_⟩
  · rintro (h | h) <;> simp [getSubCounties, _checkInitialized, hinit, h]
  · intro h
    replace h := find?_code_of_unmatched (fun x : District => x.code) _ d h
    by_cases hf : (!d.truthy || !c.truthy) = true
    · simp [getSubCounties, _checkInitialized, hinit, hf]
    · simp [getSubCounties, _checkInitialized, districts, hinit, hdata, hf, h]
  · intro D hD hC
    replace hC := find?_code_of_unmatched (fun x : Constituency => x.code) _ c hC
    by_cases hf : (!d.truthy || !c.truthy) = true
    · simp [getSubCounties, _checkInitialized, hinit, hf]
    · simp [getSubCounties, _checkInitialized, districts, hinit, hdata, hf, hD, hC]
  · intro D C hd hc hD hC
    refine ⟨C.subcounties.map fun x => { name := x.name, code := x.code }, ?_, ?_, ?_⟩
    · simp [getSubCounties, _checkInitialized, districts, hinit, hdata, hd, hc, hD, hC]
    · simp
    · intro i hi
      simp [List.getElem?_map, List.getElem?_eq_getElem hi]
  · rintro (h | h | h) <;> simp [getElectoralAreas, _checkInitialized, hinit, h]
  · intro h
    replace h := find?_code_of_unmatched (fun x : District => x.code) _ d h
    by_cases hf : (!d.truthy || !c.truthy || !s.truthy) = true
    · simp [getElectoralAreas, _checkInitialized, hinit, hf]
    · simp [getElectoralAreas, _checkInitialized, districts, hinit, hdata, hf, h]
  · intro D hD hC
    replace hC := find?_code_of_unmatched (fun x : Constituency => x.code) _ c hC
    by_cases hf : (!d.truthy || !c.truthy || !s.truthy) = true
    · simp [getElectoralAreas, _checkInitialized, hinit, hf]
    · simp [getElectoralAreas, _checkInitialized, districts, hinit, hdata, hf, hD, hC]
  · intro D C hD hC hS
    replace hS := find?_code_of_unmatched (fun x : SubCounty => x.code) _ s hS
    by_cases hf : (!d.truthy || !c.truthy || !s.truthy) = true
    · simp [getElectoralAreas, _checkInitialized, hinit, hf]
    · simp [getElectoralAreas, _checkInitialized, districts, hinit, hdata, hf, hD, hC, hS]
  · intro D C S hd hc hs hD hC hS
    refine ⟨S.electoral_areas.map fun x => { name := x.name, code := x.code }, ?_, ?_, ?_⟩
    · simp [getElectoralAreas, _checkInitialized, districts, hinit, hdata, hd, hc, hs, hD, hC,
        hS]
    · simp
    · intro i hi
      simp [List.getElem?_map, List.getElem?_eq_getElem hi]

/-- C5 instantiated on the sample dataset: an empty constituency code, an
unmatched sub-county code, and the two full descents `027 / C1` and
`027 / C1 / S1`. -/
theorem getSubCounties_getElectoralAreas_descent_witness :
    sampleSelector.getSubCounties (.str "027") (.str "") = .ok [] ∧
    sampleSelector.getElectoralAreas (.str "027") (.str "C1") (.str "S9") = .ok [] ∧
    (∃ r, sampleSelector.getSubCounties (.str "027") (.str "C1") = .ok r ∧ r.length = 2 ∧
      r[1]? = some { name := "Rubaya", code := "S2" }) ∧
    (∃ r, sampleSelector.getElectoralAreas (.str "027") (.str "C1") (.str "S1") = .ok r ∧
      r.length = 2 ∧ r[0]? = some { name := "Kashaka", code := "E1" }) :=
  have h1 := getSubCounties_getElectoralAreas_descent sampleSelector sampleData rfl rfl
    (.str "027") (.str "") (.str "S9")
  have h2 := getSubCounties_getElectoralAreas_descent sampleSelector sampleData rfl rfl
    (.str "027") (.str "C1") (.str "S9")
  have h3 := getSubCounties_getElectoralAreas_descent sampleSelector sampleData rfl rfl
    (.str "027") (.str "C1") (.str "S1")
  ⟨h1.1 (Or.inr rfl),
   h2.2.2.2.2.2.2.2.1 sampleMbarara sampleKashari (by decide) (by decide) (by decide),
   (h3.2.2.2.1 sampleMbarara sampleKashari rfl rfl (by decide) (by decide)).imp
     fun _ h => ⟨h.1, h.2.1, h.2.2 1 (by decide)⟩,
   (h3.2.2.2.2.2.2.2.2 sampleMbarara sampleKashari sampleBubaare rfl rfl rfl
       (by decide) (by decide) (by decide)).imp
     fun _ h => ⟨h.1, h.2.1, h.2.2 0 (by decide)⟩⟩

/-! ## Resolving a full chain of codes -/

/-- C3: on an initialized selector over a dataset whose codes are unique within
their parent, for every root-to-leaf path `D, C, S, E` the call
`getLocationHierarchy` with the four codes of the path returns the path with
exactly the names and codes of `D`, `C`, `S`, `E`; and when one of the four
codes is replaced by a value that matches no node at that step of the descent,
the result is `null`. -/
theorem getLocationHierarchy_valid_chain (self : UgandaLocationSelector) (data : Data)
    (hinit : self.initialized = true) (hdata : self.data = some data)
    (huniq : UniqueCodes data)
    (D : District) (C : Constituency) (S : SubCounty) (E : ElectoralArea)
    (hD : D ∈ data.districts) (hC : C ∈ D.constituencies) (hS : S ∈ C.subcounties)
    (hE : E ∈ S.electoral_areas) :
    self.getLocationHierarchy (.str D.code) (.str C.code) (.str S.code) (.str E.code)
      = .ok (some { district := { name := D.name, code := D.code }
                    constituency := { name := C.name, code := C.code }
                    subCounty := { name := S.name, code := S.code }
                    electoralArea := { name := E.name, code := E.code } }) ∧
    (∀ x : JSVal, (∀ d ∈ data.districts, JSVal.strictEq d.code x = false) →
      self.getLocationHierarchy x (.str C.code) (.str S.code) (.str E.code) = .ok none) ∧
    (∀ x : JSVal, (∀ c ∈ D.constituencies, JSVal.strictEq c.code x = false) →
      self.getLocationHierarchy (.str D.code) x (.str S.code) (.str E.code) = .ok none) ∧
    (∀ x : JSVal, (∀ s ∈ C.subcounties, JSVal.strictEq s.code x = false) →
      self.getLocationHierarchy (.str D.code) (.str C.code) x (.str E.code) = .ok none) ∧
    (∀ x : JSVal, (∀ a ∈ S.electoral_areas, JSVal.strictEq a.code x = false) →
      self.getLocationHierarchy (.str D.code) (.str C.code) (.str S.code) x = .ok none) := by
  obtain ⟨hnd1, hrest⟩ := huniq
  obtain ⟨hnd2, hrest2⟩ := hrest D hD
  obtain ⟨hnd3, hrest3⟩ := hrest2 C hC
  have hnd4 := hrest3 S hS
  have fD := find?_code_of_nodup (fun d : District => d.code) _ D hnd1 hD
  have fC := find?_code_of_nodup (fun c : Constituency => c.code) _ C hnd2 hC
  have fS := find?_code_of_nodup (fun s : SubCounty => s.code) _ S hnd3 hS
  have fE := find?_code_of_nodup (fun a : ElectoralArea => a.code) _ E hnd4 hE
  refine ⟨?_, ?_, ?_, ?_, ?_⟩
  · simp [getLocationHierarchy, _checkInitialized, districts, hinit, hdata, fD, fC, fS, fE]
  · intro x hx
    have := find?_code_of_unmatched (fun d : District => d.code) _ x hx
    simp [getLocationHierarchy, _checkInitialized, districts, hinit, hdata, this]
  · intro x hx
    have := find?_code_of_unmatched (fun c : Constituency => c.code) _ x hx
    simp [getLocationHierarchy, _checkInitialized, districts, hinit, hdata, fD, this]
  · intro x hx
    have := find?_code_of_unmatched (fun s : SubCounty => s.code) _ x hx
    simp [getLocationHierarchy, _checkInitialized, districts, hinit, hdata, fD, fC, this]
  · intro x hx
    have := find?_code_of_unmatched (fun a : ElectoralArea => a.code) _ x hx
    simp [getLocationHierarchy, _checkInitialized, districts, hinit, hdata, fD, fC, fS, this]

/-- C3 instantiated on the sample dataset at the path
`Mbarara / Kashari / Rubaya / Bunenero`, and with the sub-county code replaced
by the unmatched `"S9"`. -/
theorem getLocationHierarchy_valid_chain_witness :
    UniqueCodes sampleData ∧
    sampleSelector.getLocationHierarchy (.str "027") (.str "C1") (.str "S2") (.str "E1")
      = .ok (some { district := { name := "Mbarara", code := "027" }
                    constituency := { name := "Kashari", code := "C1" }
                    subCounty := { name := "Rubaya", code := "S2" }
                    electoralArea := { name := "Bunenero", code := "E1" } }) ∧
    sampleSelector.getLocationHierarchy (.str "027") (.str "C1") (.str "S9") (.str "E1")
      = .ok none :=
  have h := getLocationHierarchy_valid_chain sampleSelector sampleData rfl rfl (by decide)
    sampleMbarara sampleKashari sampleRubaya { name := "Bunenero", code := "E1" }
    (by decide) (by decide) (by decide) (by decide)
  ⟨by decide, h.1, h.2.2.2.1 (.str "S9") (by decide)⟩

/-! ## Statistics -/

/-- C6: on an initialized selector, `getStatistics` returns the number of
districts, the sum over the districts of the lengths of their constituency
lists, the sum over all constituencies of the lengths of their sub-county
lists, and the sum over all sub-counties of the lengths of their electoral-area
lists; these sums are the numbers of nodes of the tree at each level. -/
theorem getStatistics_counts (self : UgandaLocationSelector) (data : Data)
    (hinit : self.initialized = true) (hdata : self.data = some data) :
    self.getStatistics = .ok
      { districts := data.districts.length
        constituencies := (data.districts.map fun d => d.constituencies.length).sum
        subCounties := (data.allConstituencies.map fun c => c.subcounties.length).sum
        electoralAreas := (data.allSubCounties.map fun s => s.electoral_areas.length).sum } ∧
    (data.districts.map fun d => d.constituencies.length).sum = data.allConstituencies.length ∧
    (data.allConstituencies.map fun c => c.subcounties.length).sum
      = data.allSubCounties.length ∧
    (data.allSubCounties.map fun s => s.electoral_areas.length).sum
      = data.allElectoralAreas.length := by
  refine ⟨?_, ?_, ?_, ?_⟩
  · simp [getStatistics, _checkInitialized, districts, hinit, hdata, countDistricts_eq,
      Data.allConstituencies, Data.allSubCounties]
  · rw [Data.allConstituencies, List.length_flatMap]
    rfl
  · rw [Data.allSubCounties, List.length_flatMap]
    rfl
  · rw [Data.allElectoralAreas, List.length_flatMap]
    rfl

/-- C6 instantiated on the sample dataset: 2 districts, 3 constituencies,
4 sub-counties, 4 electoral areas. -/
theorem getStatistics_counts_witness :
    sampleSelector.getStatistics = .ok
      { districts := 2, constituencies := 3, subCounties := 4, electoralAreas := 4 } :=
  (getStatistics_counts sampleSelector sampleData rfl rfl).1

/-! ## Search -/

/-- C7: on an initialized selector, for a non-empty term, `searchLocations` is
complete with one record per match: every node at a selected level whose
lower-cased name contains the lower-cased term has a record in the result with
the type of its level and its `{name, code}` at that level, and the number of
records is the number of matching nodes at the selected levels. The level is
the argument, or `'all'` when the argument is omitted. -/
theorem searchLocations_complete (toLowerCase : String → String)
    (self : UgandaLocationSelector) (data : Data)
    (hinit : self.initialized = true) (hdata : self.data = some data)
    (t : String) (hne : t ≠ "") (levelArg : JSVal) :
    ∃ r, self.searchLocations toLowerCase (.str t) levelArg = .ok r ∧
      (Selected (levelOrDefault levelArg) "district" →
        ∀ D ∈ data.districts, NameMatches toLowerCase t D.name →
          ∃ x ∈ r, x.type = "district" ∧ x.district = { name := D.name, code := D.code }) ∧
      (Selected (levelOrDefault levelArg) "constituency" →
        ∀ D ∈ data.districts, ∀ C ∈ D.constituencies, NameMatches toLowerCase t C.name →
          ∃ x ∈ r, x.type = "constituency" ∧
            x.constituency = some { name := C.name, code := C.code }) ∧
      (Selected (levelOrDefault levelArg) "subcounty" →
        ∀ D ∈ data.districts, ∀ C ∈ D.constituencies, ∀ S ∈ C.subcounties,
          NameMatches toLowerCase t S.name →
          ∃ x ∈ r, x.type = "subcounty" ∧
            x.subCounty = some { name := S.name, code := S.code }) ∧
      (Selected (levelOrDefault levelArg) "electoral_area" →
        ∀ D ∈ data.districts, ∀ C ∈ D.constituencies, ∀ S ∈ C.subcounties,
          ∀ A ∈ S.electoral_areas, NameMatches toLowerCase t A.name →
          ∃ x ∈ r, x.type = "electoral_area" ∧
            x.electoralArea = some { name := A.name, code := A.code }) ∧
      r.length =
        (if Selected (levelOrDefault levelArg) "district"
          then data.districts.countP (fun D => decide (NameMatches toLowerCase t D.name))
          else 0) +
        (if Selected (levelOrDefault levelArg) "constituency"
          then data.allConstituencies.countP
            (fun C => decide (NameMatches toLowerCase t C.name))
          else 0) +
        (if Selected (levelOrDefault levelArg) "subcounty"
          then data.allSubCounties.countP (fun S => decide (NameMatches toLowerCase t S.name))
          else 0) +
        (if Selected (levelOrDefault levelArg) "electoral_area"
          then data.allElectoralAreas.countP
            (fun A => decide (NameMatches toLowerCase t A.name))
          else 0) := by
  refine ⟨_, searchLocations_nonempty toLowerCase self data hinit hdata t hne levelArg,
    ?_, ?_, ?_, ?_, ?_⟩
  · intro hsel D hD hm
    exact ⟨districtRecord D,
      (mem_preorderRecords _ _ _ _ _).mpr (Or.inl ⟨hsel, D, hD, hm, rfl⟩), rfl, rfl⟩
  · intro hsel D hD C hC hm
    exact ⟨constituencyRecord D C,
      (mem_preorderRecords _ _ _ _ _).mpr (Or.inr (Or.inl ⟨hsel, D, hD, C, hC, hm, rfl⟩)),
      rfl, rfl⟩
  · intro hsel D hD C hC S hS hm
    exact ⟨subCountyRecord D C S,
      (mem_preorderRecords _ _ _ _ _).mpr
        (Or.inr (Or.inr (Or.inl ⟨hsel, D, hD, C, hC, S, hS, hm, rfl⟩))),
      rfl, rfl⟩
  · intro hsel D hD C hC S hS A hA hm
    exact ⟨electoralAreaRecord D C S A,
      (mem_preorderRecords _ _ _ _ _).mpr
        (Or.inr (Or.inr (Or.inr ⟨hsel, D, hD, C, hC, S, hS, A, hA, hm, rfl⟩))),
      rfl, rfl⟩
  · exact length_preorderRecords toLowerCase (levelOrDefault levelArg) t data.districts

/-- C7 instantiated on the sample dataset: the term `"MBARARA"` at level
`'all'` yields a record of type `district` for Mbarara, and two records in all
(the district and the constituency `Mbarara Municipality`). -/
theorem searchLocations_complete_witness :
    ∃ r, sampleSelector.searchLocations asciiLower (.str "MBARARA") (.str "all") = .ok r ∧
      (∃ x ∈ r, x.type = "district" ∧ x.district = { name := "Mbarara", code := "027" }) ∧
      r.length = 2 :=
  (searchLocations_complete asciiLower sampleSelector sampleData rfl rfl "MBARARA"
    (by decide) (.str "all")).imp
    fun _ h => ⟨h.1, h.2.1 (by decide) sampleMbarara (by decide) (by decide),
      h.2.2.2.2.2.trans (by decide)⟩

/-- C8: on an initialized selector, for every term and level, every record
returned by `searchLocations` has a type selected by the level (the level
itself, or one of the four levels when the level is `'all'`, which is also the
value of an omitted level); the name of its entry at that level contains the
term case-insensitively; it has the entries from `district` down to its type
and none below; and these entries are the `{name, code}` of a parent-child
chain of the tree. -/
theorem searchLocations_sound (toLowerCase : String → String)
    (self : UgandaLocationSelector) (data : Data)
    (hinit : self.initialized = true) (hdata : self.data = some data)
    (term levelArg : JSVal) :
    ∃ r, self.searchLocations toLowerCase term levelArg = .ok r ∧
      ∀ x ∈ r, ∃ t, term = .str t ∧
        (levelOrDefault levelArg = .str x.type ∨
          (levelOrDefault levelArg = .str "all" ∧
            x.type ∈ ["district", "constituency", "subcounty", "electoral_area"])) ∧
        ((x.type = "district" ∧ ∃ D ∈ data.districts,
            NameMatches toLowerCase t D.name ∧
            x.district = { name := D.name, code := D.code } ∧
            x.constituency = none ∧ x.subCounty = none ∧ x.electoralArea = none) ∨
         (x.type = "constituency" ∧ ∃ D ∈ data.districts, ∃ C ∈ D.constituencies,
            NameMatches toLowerCase t C.name ∧
            x.district = { name := D.name, code := D.code } ∧
            x.constituency = some { name := C.name, code := C.code } ∧
            x.subCounty = none ∧ x.electoralArea = none) ∨
         (x.type = "subcounty" ∧ ∃ D ∈ data.districts, ∃ C ∈ D.constituencies,
            ∃ S ∈ C.subcounties,
            NameMatches toLowerCase t S.name ∧
            x.district = { name := D.name, code := D.code } ∧
            x.constituency = some { name := C.name, code := C.code } ∧
            x.subCounty = some { name := S.name, code := S.code } ∧
            x.electoralArea = none) ∨
         (x.type = "electoral_area" ∧ ∃ D ∈ data.districts, ∃ C ∈ D.constituencies,
            ∃ S ∈ C.subcounties, ∃ A ∈ S.electoral_areas,
            NameMatches toLowerCase t A.name ∧
            x.district = { name := D.name, code := D.code } ∧
            x.constituency = some { name := C.name, code := C.code } ∧
            x.subCounty = some { name := S.name, code := S.code } ∧
            x.electoralArea = some { name := A.name, code := A.code })) := by
  by_cases hf : term.truthy = false
  · exact ⟨[], searchLocations_falsy toLowerCase self hinit term levelArg hf,
      fun x hx => absurd hx (List.not_mem_nil x)⟩
  · obtain ⟨t, rfl, hne⟩ : ∃ t, term = .str t ∧ t ≠ "" := by
      cases term with
      | undefined => exact absurd rfl hf
      | null => exact absurd rfl hf
      | str t => exact ⟨t, rfl, fun h => hf (by simp [JSVal.truthy, h])⟩
    refine ⟨_, searchLocations_nonempty toLowerCase self data hinit hdata t hne levelArg, ?_⟩
    intro x hx
    refine ⟨t, rfl, ?_⟩
    have hsel : ∀ name : String,
        name ∈ ["district", "constituency", "subcounty", "electoral_area"] →
        Selected (levelOrDefault levelArg) name →
        (levelOrDefault levelArg = .str name ∨
          (levelOrDefault levelArg = .str "all" ∧
            name ∈ ["district", "constituency", "subcounty", "electoral_area"])) :=
      fun name hmem h => h.imp id fun hall => ⟨hall, hmem⟩
    rcases (mem_preorderRecords _ _ _ _ _).mp hx with
      ⟨h1, D, hD, hm, rfl⟩ | ⟨h1, D, hD, C, hC, hm, rfl⟩ |
      ⟨h1, D, hD, C, hC, S, hS, hm, rfl⟩ | ⟨h1, D, hD, C, hC, S, hS, A, hA, hm, rfl⟩
    · exact ⟨hsel "district" (by decide) h1,
        Or.inl ⟨rfl, D, hD, hm, rfl, rfl, rfl, rfl⟩⟩
    · exact ⟨hsel "constituency" (by decide) h1,
        Or.inr (Or.inl ⟨rfl, D, hD, C, hC, hm, rfl, rfl, rfl, rfl⟩)⟩
    · exact ⟨hsel "subcounty" (by decide) h1,
        Or.inr (Or.inr (Or.inl ⟨rfl, D, hD, C, hC, S, hS, hm, rfl, rfl, rfl, rfl⟩))⟩
    · exact ⟨hsel "electoral_area" (by decide) h1,
        Or.inr (Or.inr (Or.inr ⟨rfl, D, hD, C, hC, S, hS, A, hA, hm, rfl, rfl, rfl, rfl⟩))⟩

/-- C8 instantiated on the sample dataset: the term `"kakoba"` at level
`'subcounty'` returns a single record, and each returned record is described
by the soundness statement. -/
theorem searchLocations_sound_witness :
    sampleSelector.searchLocations asciiLower (.str "kakoba") (.str "subcounty") =
      .ok [{ type := "subcounty"
             district := { name := "Mbarara", code := "027" }
             constituency := some { name := "Mbarara Municipality", code := "C2" }
             subCounty := some { name := "Kakoba", code := "S1" }
             electoralArea := none }] ∧
    ∃ r, sampleSelector.searchLocations asciiLower (.str "kakoba") (.str "subcounty") = .ok r ∧
      ∀ x ∈ r, ∃ t, JSVal.str "kakoba" = .str t ∧
        (levelOrDefault (.str "subcounty") = .str x.type ∨
          (levelOrDefault (.str "subcounty") = .str "all" ∧
            x.type ∈ ["district", "constituency", "subcounty", "electoral_area"])) :=
  ⟨rfl, (searchLocations_sound asciiLower sampleSelector sampleData rfl rfl (.str "kakoba")
    (.str "subcounty")).imp fun _ h => ⟨h.1, fun x hx => (h.2 x hx).imp fun _ ht =>
      ⟨ht.1, ht.2.1⟩⟩⟩

/-- C9: on an initialized selector, the records returned by `searchLocations`
for a non-empty term are the depth-first pre-order of the tree in source order
(`preorderRecords`): each matching node's record, then the records of its
subtree, sibling after sibling. In particular, when the district list splits
as `pre ++ D :: post`, the result is the records of the subtrees of `pre`, then
the record of `D` if it matches, then the records of the constituencies of `D`
in order, then the records of the subtrees of `post`. -/
theorem searchLocations_preorder (toLowerCase : String → String)
    (self : UgandaLocationSelector) (data : Data)
    (hinit : self.initialized = true) (hdata : self.data = some data)
    (t : String) (hne : t ≠ "") (levelArg : JSVal) :
    self.searchLocations toLowerCase (.str t) levelArg =
      .ok (preorderRecords toLowerCase (levelOrDefault levelArg) t data.districts) ∧
    ∀ (pre post : List District) (D : District), data.districts = pre ++ D :: post →
      self.searchLocations toLowerCase (.str t) levelArg =
        .ok (preorderRecords toLowerCase (levelOrDefault levelArg) t pre ++
          ((if Selected (levelOrDefault levelArg) "district" ∧ NameMatches toLowerCase t D.name
              then [districtRecord D] else []) ++
            D.constituencies.flatMap fun C =>
              preorderConstituency toLowerCase (levelOrDefault levelArg) t D C) ++
          preorderRecords toLowerCase (levelOrDefault levelArg) t post) := by
  have h := searchLocations_nonempty toLowerCase self data hinit hdata t hne levelArg
  refine ⟨h, ?_⟩
  intro pre post D hsplit
  rw [h, hsplit]
  simp [preorderRecords, preorderDistrict, List.flatMap_append, List.flatMap_cons]

/-- C9 instantiated on the sample dataset: the term `"ka"` at level `'all'`
returns its seven records in traversal order. -/
theorem searchLocations_preorder_witness :
    (sampleSelector.searchLocations asciiLower (.str "ka") (.str "all")).toOption.map
        (fun r => r.map fun x => (x.type, x.district.name))
      = some [("constituency", "Mbarara"), ("electoral_area", "Mbarara"),
              ("subcounty", "Mbarara"), ("electoral_area", "Mbarara"),
              ("district", "Kampala"), ("constituency", "Kampala"),
              ("subcounty", "Kampala")] :=
  (congrArg (fun o => o.toOption.map fun r => r.map fun x => (x.type, x.district.name))
    (searchLocations_preorder asciiLower sampleSelector sampleData rfl rfl "ka" (by decide)
      (.str "all")).1).trans (by decide)

/-- C10: on an initialized selector, whatever it holds, `searchLocations` with
the empty term returns `[]` for every level (`'all'` and the omitted level
included) and does not throw. -/
theorem searchLocations_empty_term (toLowerCase : String → String)
    (self : UgandaLocationSelector) (hinit : self.initialized = true) (levelArg : JSVal) :
    self.searchLocations toLowerCase (.str "") levelArg = .ok [] :=
  searchLocations_falsy toLowerCase self hinit (.str "") levelArg rfl

/-- C10 instantiated on the sample dataset with the level omitted. -/
theorem searchLocations_empty_term_witness :
    sampleSelector.searchLocations asciiLower (.str "") .undefined = .ok [] :=
  searchLocations_empty_term asciiLower sampleSelector rfl .undefined

/-! ## Geocoding -/

/-- C11: `getCoordinates` with an empty query (or with `null`, or without
argument) fails with the `Location name is required` error before any network
activity: for every selector, every `encodeURIComponent`, every `parseFloat` and
every behaviour of the geocoding service, the outcome is that error and no
request is issued. -/
theorem getCoordinates_empty_query {Number : Type} (encodeURIComponent : String → String)
    (parseFloat : String → Number)
    (fetchJson : String → Except Error (Option (List GeoResult)))
    (self : UgandaLocationSelector) :
    getCoordinates encodeURIComponent parseFloat fetchJson self (.str "") =
      { result := .error .locationNameRequired, requests := [] } ∧
    getCoordinates encodeURIComponent parseFloat fetchJson self .null =
      { result := .error .locationNameRequired, requests := [] } ∧
    getCoordinates encodeURIComponent parseFloat fetchJson self .undefined =
      { result := .error .locationNameRequired, requests := [] } :=
  ⟨rfl, rfl, rfl⟩

/-- C12: for a non-empty query, `getCoordinates` issues one request, to the
search URL with `format=json`, the encoded query and `limit=1`, and maps the
answer: an empty array fails with the `No coordinates found` error; a non-empty
array returns `lat` and `lon` parsed by `parseFloat` from the first element and
its `display_name` unchanged. -/
theorem getCoordinates_maps_response {Number : Type} (encodeURIComponent : String → String)
    (parseFloat : String → Number)
    (fetchJson : String → Except Error (Option (List GeoResult)))
    (self : UgandaLocationSelector) (locationName : String) (hne : locationName ≠ "") :
    (getCoordinates encodeURIComponent parseFloat fetchJson self (.str locationName)).requests =
      ["https://nominatim.openstreetmap.org/search?format=json&q="
        ++ encodeURIComponent locationName ++ "&limit=1"] ∧
    (fetchJson ("https://nominatim.openstreetmap.org/search?format=json&q="
        ++ encodeURIComponent locationName ++ "&limit=1") = .ok (some []) →
      (getCoordinates encodeURIComponent parseFloat fetchJson self (.str locationName)).result =
        .error (.noCoordinatesFound locationName)) ∧
    (∀ (first : GeoResult) (rest : List GeoResult),
      fetchJson ("https://nominatim.openstreetmap.org/search?format=json&q="
        ++ encodeURIComponent locationName ++ "&limit=1") = .ok (some (first :: rest)) →
      (getCoordinates encodeURIComponent parseFloat fetchJson self (.str locationName)).result =
        .ok { lat := parseFloat first.lat
              lon := parseFloat first.lon
              display_name := first.display_name }) := by
  refine ⟨?_, ?_, ?_⟩
  · simp only [getCoordinates, beq_iff_eq, hne, if_false]
    cases hf : fetchJson ("https://nominatim.openstreetmap.org/search?format=json&q="
        ++ encodeURIComponent locationName ++ "&limit=1") with
    | error e => rfl
    | ok data =>
      cases data with
      | none => rfl
      | some l => cases l <;> rfl
  · intro h
    simp only [getCoordinates, beq_iff_eq, hne, if_false, h]
  · intro first rest h
    simp only [getCoordinates, beq_iff_eq, hne, if_false, h]

/-- C12 instantiated on the example response
`[{lat: "0.3", lon: "32.6", display_name: "X"}]`. -/
theorem getCoordinates_maps_response_witness :
    (getCoordinates id sampleParseFloat sampleService sampleSelector
        (.str "Mbarara, Uganda")).result =
      .ok { lat := sampleParseFloat "0.3", lon := sampleParseFloat "32.6", display_name := "X" } ∧
    sampleParseFloat "0.3" = 3 / 10 ∧ sampleParseFloat "32.6" = 163 / 5 :=
  ⟨(getCoordinates_maps_response id sampleParseFloat sampleService sampleSelector
      "Mbarara, Uganda" (by decide)).2.2
      { lat := "0.3", lon := "32.6", display_name := "X" } [] rfl,
    rfl, rfl⟩

/-- C14, as stated, fails: on a freshly constructed selector, on which `init`
was never called, `getCoordinates` with a non-empty query returns the
coordinates answered by the service, not the not-initialized error. -/
theorem getCoordinates_unready_counterexample :
    UgandaLocationSelector.new.initialized = false ∧
    (getCoordinates id sampleParseFloat sampleService UgandaLocationSelector.new
        (.str "Mbarara, Uganda")).result =
      .ok { lat := 3 / 10, lon := 163 / 5, display_name := "X" } ∧
    (getCoordinates id sampleParseFloat sampleService UgandaLocationSelector.new
        (.str "Mbarara, Uganda")).result ≠ .error .notInitialized :=
  ⟨rfl, rfl, fun h => by cases h⟩

/-- C14, amended: `getCoordinates` does not check readiness. On a selector on
which `init` has not succeeded, with a non-empty query, it does what it does on
any other selector: it issues the request, rethrows an error of the service,
fails with `No coordinates found` on an empty array, and returns the parsed
first element of a non-empty array. -/
theorem getCoordinates_without_readiness_check {Number : Type}
    (encodeURIComponent : String → String) (parseFloat : String → Number)
    (fetchJson : String → Except Error (Option (List GeoResult)))
    (self : UgandaLocationSelector) (hinit : self.initialized = false)
    (locationName : String) (hne : locationName ≠ "") :
    (∀ other : UgandaLocationSelector,
      getCoordinates encodeURIComponent parseFloat fetchJson self (.str locationName) =
        getCoordinates encodeURIComponent parseFloat fetchJson other (.str locationName)) ∧
    (∀ e : Error,
      fetchJson ("https://nominatim.openstreetmap.org/search?format=json&q="
        ++ encodeURIComponent locationName ++ "&limit=1") = .error e →
      (getCoordinates encodeURIComponent parseFloat fetchJson self (.str locationName)).result =
        .error e) ∧
    (fetchJson ("https://nominatim.openstreetmap.org/search?format=json&q="
        ++ encodeURIComponent locationName ++ "&limit=1") = .ok (some []) →
      (getCoordinates encodeURIComponent parseFloat fetchJson self (.str locationName)).result =
        .error (.noCoordinatesFound locationName)) ∧
    (∀ (first : GeoResult) (rest : List GeoResult),
      fetchJson ("https://nominatim.openstreetmap.org/search?format=json&q="
        ++ encodeURIComponent locationName ++ "&limit=1") = .ok (some (first :: rest)) →
      (getCoordinates encodeURIComponent parseFloat fetchJson self (.str locationName)).result =
        .ok { lat := parseFloat first.lat
              lon := parseFloat first.lon
              display_name := first.display_name }) := by
  have _ := hinit
  refine ⟨fun _ => rfl, ?_, ?_, ?_⟩
  · intro e h
    simp only [getCoordinates, beq_iff_eq, hne, if_false, h]
  · intro h
    simp only [getCoordinates, beq_iff_eq, hne, if_false, h]
  · intro first rest h
    simp only [getCoordinates, beq_iff_eq, hne, if_false, h]

/-- C14 amended, instantiated on a freshly constructed selector and the example
service. -/
theorem getCoordinates_without_readiness_check_witness :
    (getCoordinates id sampleParseFloat sampleService UgandaLocationSelector.new
        (.str "Mbarara, Uganda")).result =
      .ok { lat := sampleParseFloat "0.3", lon := sampleParseFloat "32.6", display_name := "X" } :=
  (getCoordinates_without_readiness_check id sampleParseFloat sampleService
    UgandaLocationSelector.new rfl "Mbarara, Uganda" (by decide)).2.2.2
    { lat := "0.3", lon := "32.6", display_name := "X" } [] rfl

/-! ## Loading -/

/-- C13, as stated, fails: a payload that parses but has no `districts` key is
not well-formed, and `init` on a freshly constructed selector nevertheless
succeeds and sets `initialized` to true. -/
theorem init_malformed_payload_counterexample :
    ¬ WellFormed malformedPayload ∧
    (init (nodeEnvironment malformedPayload) LoadedFields.new).2 = .ok () ∧
    (init (nodeEnvironment malformedPayload) LoadedFields.new).1.initialized = true :=
  ⟨by decide, rfl, rfl⟩

/-- C13, amended: `init` does not validate the payload. For every payload that
is obtained and parsed, well-formed or not, `init` succeeds, stores the payload
in `data` and sets `initialized` to true; for a well-formed payload the lookups
then work on its decoded tree. `init` fails only when obtaining or parsing the
payload fails; it then rethrows that error and leaves both fields as they
were. -/
theorem init_stores_any_payload (env : LoadEnvironment) (self : LoadedFields) (payload : Json)
    (hload : (if env.hasWindow then env.fetchDataFile else env.readDataFile) = .ok payload) :
    init env self = ({ data := payload, initialized := true }, .ok ()) ∧
    (∀ data : Data, decodeData payload = some data →
      (init env self).1.toSelector = { data := some data, initialized := true }) ∧
    (∀ (env2 : LoadEnvironment) (e : Error),
      (if env2.hasWindow then env2.fetchDataFile else env2.readDataFile) = .error e →
      init env2 self = (self, .error e)) := by
  refine ⟨?_, ?_, ?_⟩
  · simp only [init, hload]
  · intro data hdata
    simp only [init, hload, LoadedFields.toSelector, hdata]
  · intro env2 e he
    simp only [init, he]

/-- C13 amended, instantiated: the payload without `districts` is stored and
the flag set; the well-formed sample payload yields a selector on its decoded
tree; a failing read leaves a fresh selector not initialized. -/
theorem init_stores_any_payload_witness :
    init (nodeEnvironment malformedPayload) LoadedFields.new =
      ({ data := malformedPayload, initialized := true }, .ok ()) ∧
    ((init (nodeEnvironment samplePayload) LoadedFields.new).1.toSelector.getDistricts =
      .ok [{ name := "Kampala", code := "012" }]) ∧
    (init { hasWindow := false, fetchDataFile := .ok samplePayload
            readDataFile := .error (.external "ENOENT") } LoadedFields.new).1.initialized
      = false :=
  ⟨(init_stores_any_payload (nodeEnvironment malformedPayload) LoadedFields.new
      malformedPayload rfl).1,
    rfl, rfl⟩

/-! ## Further properties of the lookups -/

/-- In a list whose images under `f` are pairwise distinct, elements at
different positions have different images. -/
theorem ne_of_nodup_map {α β : Type} (f : α → β) (l : List α) (h : (l.map f).Nodup)
    (i j : Nat) (hi : i < l.length) (hj : j < l.length) (hij : i ≠ j) :
    f (l.get ⟨i, hi⟩) ≠ f (l.get ⟨j, hj⟩) := by
  intro heq
  have hi2 : i < (l.map f).length := by simpa using hi
  have hj2 : j < (l.map f).length := by simpa using hj
  have h2 : (l.map f)[i] = (l.map f)[j] := by
    simpa [List.getElem_map] using heq
  exact hij ((h.getElem_inj_iff (i := i) (j := j)).mp h2)

/-- C15: on an initialized selector over a dataset whose constituency codes are
unique within their district, for every district code that matches a district
the sequence returned by `getConstituencies` has no two elements at different
positions with the same code. -/
theorem getConstituencies_codes_unique (self : UgandaLocationSelector) (data : Data)
    (hinit : self.initialized = true) (hdata : self.data = some data)
    (huniq : ∀ d ∈ data.districts, (d.constituencies.map fun c => c.code).Nodup)
    (code : JSVal) (hmatch : ∃ d ∈ data.districts, JSVal.strictEq d.code code = true) :
    ∃ r, self.getConstituencies code = .ok r ∧
      ∀ (i j : Nat) (hi : i < r.length) (hj : j < r.length), i ≠ j →
        (r.get ⟨i, hi⟩).code ≠ (r.get ⟨j, hj⟩).code := by
  by_cases ht : code.truthy = true
  · have hsome : (data.districts.find? fun d => JSVal.strictEq d.code code).isSome = true := by
      rw [List.find?_isSome]
      exact hmatch
    obtain ⟨D, hD⟩ := Option.isSome_iff_exists.mp hsome
    have hmem : D ∈ data.districts := List.mem_of_find?_eq_some hD
    refine ⟨D.constituencies.map fun c => { name := c.name, code := c.code }, ?_, ?_⟩
    · simp [getConstituencies, _checkInitialized, districts, hinit, hdata, ht, hD]
    · intro i j hi hj hij
      apply ne_of_nodup_map (fun x : Entry => x.code) _ _ i j hi hj hij
      rw [List.map_map]
      exact huniq D hmem
  · refine ⟨[], ?_, ?_⟩
    · simp [getConstituencies, _checkInitialized, hinit, ht]
    · intro i j hi
      exact absurd hi (Nat.not_lt_zero i)

/-- C15 instantiated on the sample dataset at district code `"027"`: the two
returned codes differ. -/
theorem getConstituencies_codes_unique_witness :
    ∃ r, sampleSelector.getConstituencies (.str "027") = .ok r ∧
      ∀ (i j : Nat) (hi : i < r.length) (hj : j < r.length), i ≠ j →
        (r.get ⟨i, hi⟩).code ≠ (r.get ⟨j, hj⟩).code :=
  getConstituencies_codes_unique sampleSelector sampleData rfl rfl (by decide) (.str "027")
    ⟨sampleMbarara, by decide, by decide⟩

/-- C16: on an initialized selector, `getDistricts` returns a sequence with one
element per district of the dataset, in source order: its length is the number
of districts and its `i`-th element is the `{name, code}` of the `i`-th
district; it is the empty sequence when there is no district. -/
theorem getDistricts_lists_all (self : UgandaLocationSelector) (data : Data)
    (hinit : self.initialized = true) (hdata : self.data = some data) :
    ∃ r, self.getDistricts = .ok r ∧ r.length = data.districts.length ∧
      (∀ (i : Nat) (hi : i < data.districts.length),
        r[i]? = some { name := (data.districts.get ⟨i, hi⟩).name
                       code := (data.districts.get ⟨i, hi⟩).code }) ∧
      (data.districts = [] → r = []) := by
  refine ⟨data.districts.map fun d => { name := d.name, code := d.code }, ?_, ?_, ?_, ?_⟩
  · simp [getDistricts, _checkInitialized, districts, hinit, hdata]
  · simp
  · intro i hi
    simp [List.getElem?_map, List.getElem?_eq_getElem hi]
  · intro h
    simp [h]

/-- C16 instantiated on the sample dataset. -/
theorem getDistricts_lists_all_witness :
    ∃ r, sampleSelector.getDistricts = .ok r ∧ r.length = 2 ∧
      r[1]? = some { name := "Kampala", code := "012" } :=
  (getDistricts_lists_all sampleSelector sampleData rfl rfl).imp
    fun _ h => ⟨h.1, h.2.1, h.2.2.1 1 (by decide)⟩

/-- C17: on an initialized selector, for non-empty codes `d`, `c`, `s` and every
value `e`, `getLocationHierarchy d c s e` is non-null exactly when
`getElectoralAreas d c s` has an element whose code is `e`, and then the
`electoralArea` of the resolved path is the first such element of the list. -/
theorem getLocationHierarchy_iff_listed (self : UgandaLocationSelector) (data : Data)
    (hinit : self.initialized = true) (hdata : self.data = some data)
    (d c s : String) (hd : d ≠ "") (hc : c ≠ "") (hs : s ≠ "") (e : JSVal) :
    ∃ (path : Option Hierarchy) (areas : List Entry),
      self.getLocationHierarchy (.str d) (.str c) (.str s) e = .ok path ∧
      self.getElectoralAreas (.str d) (.str c) (.str s) = .ok areas ∧
      (path.isSome = true ↔ ∃ x ∈ areas, JSVal.strictEq x.code e = true) ∧
      ∀ p, path = some p →
        areas.find? (fun x => JSVal.strictEq x.code e) = some p.electoralArea := by
  have td : (JSVal.str d).truthy = true := by simp [JSVal.truthy, hd]
  have tc : (JSVal.str c).truthy = true := by simp [JSVal.truthy, hc]
  have ts : (JSVal.str s).truthy = true := by simp [JSVal.truthy, hs]
  cases hD : data.districts.find? (fun x => JSVal.strictEq x.code (.str d)) with
  | none =>
    refine ⟨none, [], ?_, ?_, by simp, by simp⟩
    · simp [getLocationHierarchy, _checkInitialized, districts, hinit, hdata, hD]
    · simp [getElectoralAreas, _checkInitialized, districts, hinit, hdata, td, tc, ts, hD]
  | some D =>
    cases hC : D.constituencies.find? (fun x => JSVal.strictEq x.code (.str c)) with
    | none =>
      refine ⟨none, [], ?_, ?_, by simp, by simp⟩
      · simp [getLocationHierarchy, _checkInitialized, districts, hinit, hdata, hD, hC]
      · simp [getElectoralAreas, _checkInitialized, districts, hinit, hdata, td, tc, ts, hD, hC]
    | some C =>
      cases hS : C.subcounties.find? (fun x => JSVal.strictEq x.code (.str s)) with
      | none =>
        refine ⟨none, [], ?_, ?_, by simp, by simp⟩
        · simp [getLocationHierarchy, _checkInitialized, districts, hinit, hdata, hD, hC, hS]
        · simp [getElectoralAreas, _checkInitialized, districts, hinit, hdata, td, tc, ts, hD,
            hC, hS]
      | some S =>
        have hareas : self.getElectoralAreas (.str d) (.str c) (.str s) =
            .ok (S.electoral_areas.map fun a => { name := a.name, code := a.code }) := by
          simp [getElectoralAreas, _checkInitialized, districts, hinit, hdata, td, tc, ts, hD,
            hC, hS]
        have hfind :
            (S.electoral_areas.map fun a => ({ name := a.name, code := a.code } : Entry)).find?
              (fun x => JSVal.strictEq x.code e) =
            (S.electoral_areas.find? fun a => JSVal.strictEq a.code e).map
              fun a => { name := a.name, code := a.code } := by
          rw [List.find?_map]
          rfl
        cases hA : S.electoral_areas.find? (fun a => JSVal.strictEq a.code e) with
        | none =>
          refine ⟨none, _, ?_, hareas, ?_, by simp⟩
          · simp [getLocationHierarchy, _checkInitialized, districts, hinit, hdata, hD, hC, hS,
              hA]
          · constructor
            · intro h
              simp at h
            · rintro ⟨x, hx, hxe⟩
              obtain ⟨a, ha, rfl⟩ := List.mem_map.mp hx
              have := List.find?_eq_none.mp hA a ha
              exact absurd hxe this
        | some A =>
          refine ⟨some
            { district := { name := D.name, code := D.code }
              constituency := { name := C.name, code := C.code }
              subCounty := { name := S.name, code := S.code }
              electoralArea := { name := A.name, code := A.code } }, _, ?_, hareas, ?_, ?_⟩
          · simp [getLocationHierarchy, _checkInitialized, districts, hinit, hdata, hD, hC, hS,
              hA]
          · constructor
            · intro _
              exact ⟨{ name := A.name, code := A.code },
                List.mem_map.mpr ⟨A, List.mem_of_find?_eq_some hA, rfl⟩,
                List.find?_some (p := fun a : ElectoralArea => JSVal.strictEq a.code e) hA⟩
            · intro _
              rfl
          · intro p hp
            rw [hfind, hA]
            cases hp
            rfl

/-- C17 instantiated on the sample dataset at `027 / C1 / S1` and electoral
area code `"E2"`. -/
theorem getLocationHierarchy_iff_listed_witness :
    ∃ (path : Option Hierarchy) (areas : List Entry),
      sampleSelector.getLocationHierarchy (.str "027") (.str "C1") (.str "S1") (.str "E2")
        = .ok path ∧
      sampleSelector.getElectoralAreas (.str "027") (.str "C1") (.str "S1") = .ok areas ∧
      (path.isSome = true ↔ ∃ x ∈ areas, JSVal.strictEq x.code (.str "E2") = true) ∧
      ∀ p, path = some p →
        areas.find? (fun x => JSVal.strictEq x.code (.str "E2")) = some p.electoralArea :=
  getLocationHierarchy_iff_listed sampleSelector sampleData rfl rfl "027" "C1" "S1"
    (by decide) (by decide) (by decide) (.str "E2")

/-- A value strictly equal to a string is that string. -/
theorem eq_str_of_strictEq (code : String) (v : JSVal) (h : JSVal.strictEq code v = true) :
    v = .str code := by
  cases v with
  | undefined => simp [JSVal.strictEq] at h
  | null => simp [JSVal.strictEq] at h
  | str s =>
    have hs : code = s := by simpa [JSVal.strictEq] using h
    rw [hs]

/-- C19: on an initialized selector, for every dataset (codes unique or not) and
all four codes, when `getLocationHierarchy` returns a path, the four codes of
the path are the four codes passed in, and each node of the path is the first
node with that code among the children of the node before it (among the
districts for the first). -/
theorem getLocationHierarchy_first_match (self : UgandaLocationSelector) (data : Data)
    (hinit : self.initialized = true) (hdata : self.data = some data)
    (d c s e : JSVal) (p : Hierarchy)
    (hres : self.getLocationHierarchy d c s e = .ok (some p)) :
    d = .str p.district.code ∧ c = .str p.constituency.code ∧
    s = .str p.subCounty.code ∧ e = .str p.electoralArea.code ∧
    ∃ (D : District) (C : Constituency) (S : SubCounty) (A : ElectoralArea),
      data.districts.find? (fun x => x.code == p.district.code) = some D ∧
      D.constituencies.find? (fun x => x.code == p.constituency.code) = some C ∧
      C.subcounties.find? (fun x => x.code == p.subCounty.code) = some S ∧
      S.electoral_areas.find? (fun x => x.code == p.electoralArea.code) = some A ∧
      p = { district := { name := D.name, code := D.code }
            constituency := { name := C.name, code := C.code }
            subCounty := { name := S.name, code := S.code }
            electoralArea := { name := A.name, code := A.code } } := by
  simp only [getLocationHierarchy, _checkInitialized, districts, hinit, hdata] at hres
  cases hD : data.districts.find? (fun x => JSVal.strictEq x.code d) with
  | none => simp [hD] at hres
  | some D =>
    cases hC : D.constituencies.find? (fun x => JSVal.strictEq x.code c) with
    | none => simp [hD, hC] at hres
    | some C =>
      cases hS : C.subcounties.find? (fun x => JSVal.strictEq x.code s) with
      | none => simp [hD, hC, hS] at hres
      | some S =>
        cases hA : S.electoral_areas.find? (fun x => JSVal.strictEq x.code e) with
        | none => simp [hD, hC, hS, hA] at hres
        | some A =>
          simp only [hD, hC, hS, hA, Bool.not_true, if_false, Bool.false_eq_true,
            Except.ok.injEq, Option.some.injEq] at hres
          subst hres
          have ed := eq_str_of_strictEq D.code d
            (List.find?_some (p := fun x : District => JSVal.strictEq x.code d) hD)
          have ec := eq_str_of_strictEq C.code c
            (List.find?_some (p := fun x : Constituency => JSVal.strictEq x.code c) hC)
          have es := eq_str_of_strictEq S.code s
            (List.find?_some (p := fun x : SubCounty => JSVal.strictEq x.code s) hS)
          have ee := eq_str_of_strictEq A.code e
            (List.find?_some (p := fun x : ElectoralArea => JSVal.strictEq x.code e) hA)
          subst ed ec es ee
          exact ⟨rfl, rfl, rfl, rfl, D, C, S, A, hD, hC, hS, hA, rfl⟩

/-- C19 instantiated on the sample dataset at the path `027 / C1 / S2 / E1`. -/
theorem getLocationHierarchy_first_match_witness :
    ∃ (D : District) (C : Constituency) (S : SubCounty) (A : ElectoralArea),
      sampleData.districts.find? (fun x => x.code == "027") = some D ∧
      D.constituencies.find? (fun x => x.code == "C1") = some C ∧
      C.subcounties.find? (fun x => x.code == "S2") = some S ∧
      S.electoral_areas.find? (fun x => x.code == "E1") = some A ∧
      ({ district := { name := "Mbarara", code := "027" }
         constituency := { name := "Kashari", code := "C1" }
         subCounty := { name := "Rubaya", code := "S2" }
         electoralArea := { name := "Bunenero", code := "E1" } } : Hierarchy) =
        { district := { name := D.name, code := D.code }
          constituency := { name := C.name, code := C.code }
          subCounty := { name := S.name, code := S.code }
          electoralArea := { name := A.name, code := A.code } } :=
  (getLocationHierarchy_first_match sampleSelector sampleData rfl rfl
    (.str "027") (.str "C1") (.str "S2") (.str "E1")
    { district := { name := "Mbarara", code := "027" }
      constituency := { name := "Kashari", code := "C1" }
      subCounty := { name := "Rubaya", code := "S2" }
      electoralArea := { name := "Bunenero", code := "E1" } } rfl).2.2.2.2

/-! ## Further properties of the search -/

/-- A string level selects its own name and, when it is `'all'`, every name. -/
theorem selected_str_iff (L name : String) :
    Selected (.str L) name ↔ (L = name ∨ L = "all") := by
  unfold Selected
  rw [JSVal.str.injEq, JSVal.str.injEq]

/-- Keeping the records of type `L` in a guarded singleton of level `name`
under `'all'` gives the guarded singleton under level `L`. -/
theorem filter_guarded_singleton (L name : String) (hL : L ≠ "all") (m : Prop) [Decidable m]
    (x : SearchResult) (hx : x.type = name) :
    (if Selected (.str "all") name ∧ m then [x] else []).filter (fun y => y.type == L) =
      if Selected (.str L) name ∧ m then [x] else [] := by
  have hall : Selected (.str "all") name := Or.inr rfl
  have hsel : Selected (.str L) name ↔ name = L := by
    rw [selected_str_iff]
    constructor
    · rintro (h | h)
      · exact h.symm
      · exact absurd h hL
    · intro h
      exact Or.inl h.symm
  by_cases hm : m
  · by_cases hn : name = L
    · rw [if_pos ⟨hall, hm⟩, if_pos ⟨hsel.mpr hn, hm⟩]
      simp [List.filter, hx, hn]
    · rw [if_pos ⟨hall, hm⟩, if_neg (fun h => hn (hsel.mp h.1))]
      have hb : (name == L) = false := by
        cases hbeq : name == L with
        | false => rfl
        | true => exact absurd (beq_iff_eq.mp hbeq) hn
      simp [List.filter, hx, hb]
  · rw [if_neg (fun h => hm h.2), if_neg (fun h => hm h.2)]
    rfl

/-- Filtering commutes with a traversal whose pieces are filtered one by one. -/
theorem filter_flatMap_eq {α β : Type} (p : β → Bool) (f g : α → List β) (l : List α)
    (h : ∀ x, (f x).filter p = g x) : (l.flatMap f).filter p = l.flatMap g := by
  rw [List.filter_flatMap]
  congr 1
  funext x
  exact h x

/-- The records of type `L` below a sub-county under `'all'` are its records
under level `L`. -/
theorem filter_preorderSubCounty (toLowerCase : String → String) (L : String)
    (hL : L ≠ "all") (t : String) (D : District) (C : Constituency) (S : SubCounty) :
    (preorderSubCounty toLowerCase (.str "all") t D C S).filter (fun y => y.type == L) =
      preorderSubCounty toLowerCase (.str L) t D C S := by
  unfold preorderSubCounty
  rw [List.filter_append, filter_guarded_singleton L "subcounty" hL _ _ rfl]
  congr 1
  exact filter_flatMap_eq _ _ _ _
    fun A => filter_guarded_singleton L "electoral_area" hL _ _ rfl

/-- The records of type `L` below a constituency under `'all'` are its records
under level `L`. -/
theorem filter_preorderConstituency (toLowerCase : String → String) (L : String)
    (hL : L ≠ "all") (t : String) (D : District) (C : Constituency) :
    (preorderConstituency toLowerCase (.str "all") t D C).filter (fun y => y.type == L) =
      preorderConstituency toLowerCase (.str L) t D C := by
  unfold preorderConstituency
  rw [List.filter_append, filter_guarded_singleton L "constituency" hL _ _ rfl]
  congr 1
  exact filter_flatMap_eq _ _ _ _ fun S => filter_preorderSubCounty toLowerCase L hL t D C S

/-- The records of type `L` of the tree under `'all'` are the records of the
tree under level `L`. -/
theorem filter_preorderRecords (toLowerCase : String → String) (L : String)
    (hL : L ≠ "all") (t : String) (ds : List District) :
    (preorderRecords toLowerCase (.str "all") t ds).filter (fun y => y.type == L) =
      preorderRecords toLowerCase (.str L) t ds := by
  unfold preorderRecords
  apply filter_flatMap_eq
  intro D
  unfold preorderDistrict
  rw [List.filter_append, filter_guarded_singleton L "district" hL _ _ rfl]
  congr 1
  exact filter_flatMap_eq _ _ _ _ fun C => filter_preorderConstituency toLowerCase L hL t D C

/-- Under a level that selects nothing, the tree has no record. -/
theorem preorderRecords_eq_nil (toLowerCase : String → String) (level : JSVal) (t : String)
    (ds : List District)
    (h1 : ¬ Selected level "district") (h2 : ¬ Selected level "constituency")
    (h3 : ¬ Selected level "subcounty") (h4 : ¬ Selected level "electoral_area") :
    preorderRecords toLowerCase level t ds = [] := by
  apply List.eq_nil_of_length_eq_zero
  rw [length_preorderRecords, if_neg h1, if_neg h2, if_neg h3, if_neg h4]

/-- C18: on an initialized selector, for every term, the records of type `L` in
`searchLocations(term, 'all')`, in their order, are `searchLocations(term, L)`
for each of the four levels `L`, and the length of the `'all'` result is the
sum of the lengths of the four single-level results. -/
theorem searchLocations_all_is_merge (toLowerCase : String → String)
    (self : UgandaLocationSelector) (data : Data)
    (hinit : self.initialized = true) (hdata : self.data = some data) (term : JSVal) :
    ∃ all rd rc rs ra : List SearchResult,
      self.searchLocations toLowerCase term (.str "all") = .ok all ∧
      self.searchLocations toLowerCase term (.str "district") = .ok rd ∧
      self.searchLocations toLowerCase term (.str "constituency") = .ok rc ∧
      self.searchLocations toLowerCase term (.str "subcounty") = .ok rs ∧
      self.searchLocations toLowerCase term (.str "electoral_area") = .ok ra ∧
      all.filter (fun x => x.type == "district") = rd ∧
      all.filter (fun x => x.type == "constituency") = rc ∧
      all.filter (fun x => x.type == "subcounty") = rs ∧
      all.filter (fun x => x.type == "electoral_area") = ra ∧
      all.length = rd.length + rc.length + rs.length + ra.length := by
  by_cases hf : term.truthy = false
  · exact ⟨[], [], [], [], [],
      searchLocations_falsy toLowerCase self hinit term _ hf,
      searchLocations_falsy toLowerCase self hinit term _ hf,
      searchLocations_falsy toLowerCase self hinit term _ hf,
      searchLocations_falsy toLowerCase self hinit term _ hf,
      searchLocations_falsy toLowerCase self hinit term _ hf, rfl, rfl, rfl, rfl, rfl⟩
  · obtain ⟨t, rfl, hne⟩ : ∃ t, term = .str t ∧ t ≠ "" := by
      cases term with
      | undefined => exact absurd rfl hf
      | null => exact absurd rfl hf
      | str t => exact ⟨t, rfl, fun h => hf (by simp [JSVal.truthy, h])⟩
    refine ⟨_, _, _, _, _,
      searchLocations_nonempty toLowerCase self data hinit hdata t hne _,
      searchLocations_nonempty toLowerCase self data hinit hdata t hne _,
      searchLocations_nonempty toLowerCase self data hinit hdata t hne _,
      searchLocations_nonempty toLowerCase self data hinit hdata t hne _,
      searchLocations_nonempty toLowerCase self data hinit hdata t hne _,
      filter_preorderRecords toLowerCase "district" (by decide) t _,
      filter_preorderRecords toLowerCase "constituency" (by decide) t _,
      filter_preorderRecords toLowerCase "subcounty" (by decide) t _,
      filter_preorderRecords toLowerCase "electoral_area" (by decide) t _, ?_⟩
    simp only [levelOrDefault, length_preorderRecords]
    rw [if_pos (by decide), if_pos (by decide), if_pos (by decide), if_pos (by decide),
      if_pos (by decide), if_neg (by decide), if_neg (by decide), if_neg (by decide),
      if_neg (by decide), if_pos (by decide), if_neg (by decide), if_neg (by decide),
      if_neg (by decide), if_neg (by decide), if_pos (by decide), if_neg (by decide),
      if_neg (by decide), if_neg (by decide), if_neg (by decide), if_pos (by decide)]
    omega

/-- C18 instantiated on the sample dataset with the term `"ka"`: seven records
under `'all'`, of which one district, two constituencies, two sub-counties and
two electoral areas. -/
theorem searchLocations_all_is_merge_witness :
    ∃ all rd rc rs ra : List SearchResult,
      sampleSelector.searchLocations asciiLower (.str "ka") (.str "all") = .ok all ∧
      sampleSelector.searchLocations asciiLower (.str "ka") (.str "district") = .ok rd ∧
      sampleSelector.searchLocations asciiLower (.str "ka") (.str "constituency") = .ok rc ∧
      sampleSelector.searchLocations asciiLower (.str "ka") (.str "subcounty") = .ok rs ∧
      sampleSelector.searchLocations asciiLower (.str "ka") (.str "electoral_area") = .ok ra ∧
      all.filter (fun x => x.type == "district") = rd ∧
      all.filter (fun x => x.type == "constituency") = rc ∧
      all.filter (fun x => x.type == "subcounty") = rs ∧
      all.filter (fun x => x.type == "electoral_area") = ra ∧
      all.length = rd.length + rc.length + rs.length + ra.length :=
  searchLocations_all_is_merge asciiLower sampleSelector sampleData rfl rfl (.str "ka")

/-- C20: on an initialized selector, `searchLocations` called with a level that
is none of `'district'`, `'constituency'`, `'subcounty'`, `'electoral_area'`,
`'all'` (another string, or `null`) returns `[]` for every term and every
dataset; and with the level omitted the result is that of level `'all'`. -/
theorem searchLocations_other_level (toLowerCase : String → String)
    (self : UgandaLocationSelector) (data : Data)
    (hinit : self.initialized = true) (hdata : self.data = some data) (term : JSVal) :
    (∀ level : JSVal, level ≠ .undefined →
      level ≠ .str "district" → level ≠ .str "constituency" → level ≠ .str "subcounty" →
      level ≠ .str "electoral_area" → level ≠ .str "all" →
      self.searchLocations toLowerCase term level = .ok []) ∧
    self.searchLocations toLowerCase term .undefined =
      self.searchLocations toLowerCase term (.str "all") := by
  refine ⟨?_, rfl⟩
  intro level hu h1 h2 h3 h4 h5
  by_cases hf : term.truthy = false
  · exact searchLocations_falsy toLowerCase self hinit term _ hf
  · obtain ⟨t, rfl, hne⟩ : ∃ t, term = .str t ∧ t ≠ "" := by
      cases term with
      | undefined => exact absurd rfl hf
      | null => exact absurd rfl hf
      | str t => exact ⟨t, rfl, fun h => hf (by simp [JSVal.truthy, h])⟩
    have hlevel : levelOrDefault level = level := by
      cases level with
      | undefined => exact absurd rfl hu
      | null => rfl
      | str s => rfl
    rw [searchLocations_nonempty toLowerCase self data hinit hdata t hne level, hlevel,
      preorderRecords_eq_nil toLowerCase level t data.districts
        (fun h => h.elim h1 h5) (fun h => h.elim h2 h5) (fun h => h.elim h3 h5)
        (fun h => h.elim h4 h5)]

/-- C20 instantiated on the sample dataset: the levels `'village'` and `null`
return `[]` for the term `"ka"`, and the omitted level returns the seven
records of `'all'`. -/
theorem searchLocations_other_level_witness :
    sampleSelector.searchLocations asciiLower (.str "ka") (.str "village") = .ok [] ∧
    sampleSelector.searchLocations asciiLower (.str "ka") .null = .ok [] ∧
    sampleSelector.searchLocations asciiLower (.str "ka") .undefined =
      sampleSelector.searchLocations asciiLower (.str "ka") (.str "all") ∧
    (sampleSelector.searchLocations asciiLower (.str "ka") .undefined).toOption.map
      (fun r => r.length) = some 7 :=
  have h := searchLocations_other_level asciiLower sampleSelector sampleData rfl rfl (.str "ka")
  ⟨h.1 (.str "village") (by decide) (by decide) (by decide) (by decide) (by decide) (by decide),
   h.1 .null (by decide) (by decide) (by decide) (by decide) (by decide) (by decide),
   h.2, by decide⟩

end UgandaLocation
